import Mathlib

/-!
# NNStreamer gRPC bridge

A shallow embedding of `ext/nnstreamer/extra/nnstreamer_protobuf_grpc.cc`:
the frame codec (`_get_tensors_from_buffer`, the per-frame loop of
`SendTensors`), the transfer queue it drives and the C facade
(`_grpc_new`, `_grpc_start`, `_grpc_send`, `_grpc_stop`, ...).

Two further parts embed `gst/mqtt/ntp_util.c` (with the reference client
`tmp/ntp_client_example.c`) and the option handling of
`ext/nnstreamer/tensor_decoder/tensordec-imagesegment.c`.

Byte counts are natural numbers; where the source computes in `gsize` the
result is reduced modulo `2 ^ gsize_bits`, and a count stored in a `guint`
(the count of `g_memdup`, the size of a queue item) modulo `2 ^ 32`.  A step of the source that leaves
the defined behaviour of C++ (an index outside an array, a copy outside the
mapped buffer, a NULL queue handed to the queue library, an assignment to a
joinable `std::thread`) is a `Fault`.
-/

namespace NNStreamer

/-! ## Data model -/

/-- Constants and tables of the build target that the bridge takes from headers
outside src: the width of `gsize`, `NNS_TENSOR_SIZE_LIMIT`,
`NNS_TENSOR_RANK_LIMIT` and the element size of each tensor type. -/
structure Platform where
  gsize_bits : Nat
  NNS_TENSOR_SIZE_LIMIT : Nat
  NNS_TENSOR_RANK_LIMIT : Nat
  tensor_element_size : Nat → Nat

/-- The element-size table as nnstreamer declares it (in `tensor_typedef.h` and
`tensor_common.c`, outside src), in the order of the type enumeration: int32,
uint32, int16, uint16, int8, uint8, float64, float32, int64, uint64; any other
ordinal has size 0. -/
def tensor_element_size_table (type : Nat) : Nat :=
  [4, 4, 2, 2, 1, 1, 8, 4, 8, 8].getD type 0

/-- The usual 64-bit target: `gsize` is 64 bits wide, at most 16 tensors of rank 4. -/
def lp64 : Platform :=
  { gsize_bits := 64
    NNS_TENSOR_SIZE_LIMIT := 16
    NNS_TENSOR_RANK_LIMIT := 4
    tensor_element_size := tensor_element_size_table }

/-- The mapped memory of a `GstBuffer`: `map.data` is the list, `map.size` its length. -/
abbrev GstBuffer := List UInt8

/-- `GstTensorInfo`: optional name, type ordinal, `dimension[NNS_TENSOR_RANK_LIMIT]`. -/
structure GstTensorInfo where
  name : Option String
  type : Nat
  dimension : List Nat
deriving DecidableEq, Repr

/-- `GstTensorsInfo`: `num_tensors` and the array `info[NNS_TENSOR_SIZE_LIMIT]`. -/
structure GstTensorsInfo where
  num_tensors : Nat
  info : List GstTensorInfo
deriving DecidableEq, Repr

/-- `GstTensorsConfig`: the stream format held in `config_`. -/
structure GstTensorsConfig where
  info : GstTensorsInfo
  rate_n : Int
  rate_d : Int
deriving DecidableEq, Repr

/-- The arrays of a `GstTensorsConfig` have the sizes their C types give them. -/
def GstTensorsConfig.wf (P : Platform) (cfg : GstTensorsConfig) : Prop :=
  cfg.info.info.length = P.NNS_TENSOR_SIZE_LIMIT ∧
    ∀ t ∈ cfg.info.info, t.dimension.length = P.NNS_TENSOR_RANK_LIMIT

instance (P : Platform) (cfg : GstTensorsConfig) : Decidable (cfg.wf P) := by
  unfold GstTensorsConfig.wf
  infer_instance

/-- One tensor record of the wire message (`nnstreamer::protobuf::Tensor`). -/
structure Tensor where
  name : String
  type : Nat
  dimension : List Nat
  data : List UInt8
deriving DecidableEq, Repr

/-- The frame-rate pair of the wire message (`Tensors::frame_rate`). -/
structure frame_rate where
  rate_n : Int
  rate_d : Int
deriving DecidableEq, Repr

/-- The wire message (`nnstreamer::protobuf::Tensors`). -/
structure Tensors where
  num_tensor : Nat
  fr : frame_rate
  tensor : List Tensor
deriving DecidableEq, Repr

/-- `GstTensorMemory`: one decoded blob, its bytes and its size. -/
structure GstTensorMemory where
  data : List UInt8
  size : Nat
deriving DecidableEq, Repr

/-- Where an execution leaves the defined behaviour of the source language. -/
inductive Fault where
  /-- `config_.info.info[i]` read with `i` outside the array -/
  | config_index (i : Nat)
  /-- `set_data (map.data + offset, length)` copies bytes outside the mapped buffer -/
  | buffer_read (offset length : Nat)
  /-- `tensors.tensor (i)` with no record `i` in the message -/
  | record_index (i : Nat)
  /-- `memory[i]` stored with `i` outside the `NNS_TENSOR_SIZE_LIMIT` slots -/
  | memory_index (i : Nat)
  /-- a NULL `queue_` handed to the data queue library -/
  | null_queue
  /-- `worker_` assigned while it is joinable: `std::terminate` -/
  | thread_terminate
deriving DecidableEq, Repr

/-! ## Frame codec -/

/-- Modelled from the spec: `gst_tensor_info_get_size`, a helper of the
repository that is not under src.  §4.1 "compute its byte size from type and
shape": the element size of the type times the number of elements of the
shape, returned as a `gsize`. -/
def gst_tensor_info_get_size (P : Platform) (info : GstTensorInfo) : Nat :=
  (P.tensor_element_size info.type *
      ((List.range P.NNS_TENSOR_RANK_LIMIT).map (fun j => info.dimension.getD j 0)).prod)
    % 2 ^ P.gsize_bits

/-- The record `add_tensor` yields once name, type and dimensions are set
(lines 197-206); no data is attached yet. -/
def tensor_header (P : Platform) (info : GstTensorInfo) : Tensor :=
  { name := "Anonymous"
    type := info.type
    dimension := (List.range P.NNS_TENSOR_RANK_LIMIT).map (fun j => info.dimension.getD j 0)
    data := [] }

/-- The `for` loop of `_get_tensors_from_buffer` (lines 196-215) with `n`
iterations left, at index `i` and offset `data_ptr`; it yields the records added
from here on. -/
def tensors_from (P : Platform) (cfg : GstTensorsConfig) (buffer : GstBuffer) :
    Nat → Nat → Nat → Except Fault (List Tensor)
  | 0, _, _ => .ok []
  | n + 1, i, data_ptr =>
    match cfg.info.info[i]? with
    | none => .error (.config_index i)
    | some info =>
      let tsize := gst_tensor_info_get_size P info
      if (data_ptr + tsize) % 2 ^ P.gsize_bits > buffer.length then
        .ok [tensor_header P info]
      else if data_ptr + tsize ≤ buffer.length then
        match tensors_from P cfg buffer n (i + 1) ((data_ptr + tsize) % 2 ^ P.gsize_bits) with
        | .ok rest =>
          .ok ({ tensor_header P info with data := (buffer.drop data_ptr).take tsize } :: rest)
        | .error f => .error f
      else
        .error (.buffer_read data_ptr tsize)

/-- `NNStreamerRPC::_get_tensors_from_buffer` (lines 183-218): the frame built
from a buffer under the configured stream format. -/
def _get_tensors_from_buffer (P : Platform) (cfg : GstTensorsConfig) (buffer : GstBuffer) :
    Except Fault Tensors :=
  match tensors_from P cfg buffer cfg.info.num_tensors 0 0 with
  | .ok ts =>
    .ok { num_tensor := cfg.info.num_tensors
          fr := { rate_n := cfg.rate_n, rate_d := cfg.rate_d }
          tensor := ts }
  | .error f => .error f

/-- The value a `guint` (32 bits) holds once a wider byte count is stored in it. -/
def guint (n : Nat) : Nat :=
  n % 2 ^ 32

/-- `g_memdup (mem, byte_size)` of GLib, whose `byte_size` is a `guint`: the
`gsize` passed at line 80 is narrowed to 32 bits and that many bytes are copied
(for a count of 0 the result is NULL: no bytes). -/
def g_memdup (mem : List UInt8) (byte_size : Nat) : List UInt8 :=
  mem.take (guint byte_size)

/-- The inner `for` loop of `SendTensors` (lines 73-81) with `n` iterations
left, at index `i`, over the slots `memory`. -/
def memory_from (tensors : Tensors) :
    Nat → Nat → List (Option GstTensorMemory) → Except Fault (List (Option GstTensorMemory))
  | 0, _, memory => .ok memory
  | n + 1, i, memory =>
    match tensors.tensor[i]? with
    | none => .error (.record_index i)
    | some tensor =>
      let size := tensor.data.length
      if i < memory.length then
        memory_from tensors n (i + 1)
          (memory.set i (some { data := g_memdup tensor.data size, size := size }))
      else
        .error (.memory_index i)

/-- The decode of one frame in `SendTensors` (lines 70-81): `memory` starts as
`NNS_TENSOR_SIZE_LIMIT` NULL slots and slot `i` receives the blob of record `i`
for each `i` below the declared `num_tensor`. -/
def SendTensors_memory (P : Platform) (tensors : Tensors) :
    Except Fault (List (Option GstTensorMemory)) :=
  memory_from tensors tensors.num_tensor 0 (List.replicate P.NNS_TENSOR_SIZE_LIMIT none)

/-! ## Transfer queue -/

/-- `GstDataQueueItem` as `send` fills it (lines 115-119): the wrapped buffer,
its size (a `guint` field) and the visible flag. -/
structure GstDataQueueItem where
  object : GstBuffer
  size : Nat
  visible : Bool
deriving DecidableEq, Repr

/-- Modelled from the spec: the transfer queue (`GstDataQueue`, a GStreamer
type outside the repository), §4.2: the items queued, oldest first, and
whether the queue has been set flushing. -/
structure GstDataQueue where
  flushing : Bool
  items : List GstDataQueueItem
deriving DecidableEq, Repr

/-- `NNStreamerRPC::_data_queue_check_full_cb` (lines 249-254): "no full". -/
def _data_queue_check_full_cb (_queue : GstDataQueue) (_visible _bytes _time : Nat)
    (_checkdata : Option Nat) : Bool :=
  false

/-- Modelled from the spec: `gst_data_queue_new`; a new queue is empty and not flushing. -/
def gst_data_queue_new : GstDataQueue :=
  { flushing := false, items := [] }

/-- Modelled from the spec: `gst_data_queue_set_flushing`, §4.2 `setFlushing()`. -/
def gst_data_queue_set_flushing (queue : GstDataQueue) (flushing : Bool) : GstDataQueue :=
  { queue with flushing := flushing }

/-- Modelled from the spec: `gst_data_queue_push`, §4.2 `push(item) -> bool`:
"Returns failure if the queue is flushing/closed or a capacity policy rejects
it", the policy being the check-full callback the queue was created with, asked
with the current levels (visible items, bytes, time).  The function takes a
queue; a NULL pointer in its place is outside its contract. -/
def gst_data_queue_push
    (checkfull : GstDataQueue → Nat → Nat → Nat → Option Nat → Bool) :
    Option GstDataQueue → GstDataQueueItem → Except Fault (Bool × GstDataQueue)
  | none, _ => .error .null_queue
  | some queue, item =>
    if queue.flushing then .ok (false, queue)
    else if checkfull queue ((queue.items.filter (·.visible)).length)
        ((queue.items.map (·.size)).sum) 0 none then .ok (false, queue)
    else .ok (true, { queue with items := queue.items ++ [item] })

/-- Outcome of `gst_data_queue_pop`: an item (and the queue without it), the
flushing signal, or the caller keeps waiting on an empty queue. -/
inductive Popped where
  | item (item : GstDataQueueItem) (queue : GstDataQueue)
  | flushing
  | waiting
deriving DecidableEq, Repr

/-- Modelled from the spec: `gst_data_queue_pop`, §4.2 `pop() -> item | closed`:
"blocks the calling thread until an item is available or the queue transitions
to flushing, in which case it returns a closed/end signal rather than an item". -/
def gst_data_queue_pop : Option GstDataQueue → Except Fault Popped
  | none => .error .null_queue
  | some queue =>
    if queue.flushing then .ok .flushing
    else
      match queue.items with
      | [] => .ok .waiting
      | item :: rest => .ok (.item item { queue with items := rest })

/-! ## Session object and facade -/

/-- The members of `grpc::NNStreamerRPC` (lines 263-276): `server_` and `stub_`
record whether the pointer is non-null, `worker_` whether the thread object is
joinable, `cb_` and `cb_data_` are the registered pointers.  Two more fields
follow the worker thread: `worker_exited` once `_writer_thread` has left its
loop, and `written`, the frames it handed to `writer->Write` so far. -/
structure NNStreamerRPC where
  is_server_ : Bool
  host_ : String
  port_ : Int
  server_ : Bool
  stub_ : Bool
  worker_ : Bool
  cb_ : Option Nat
  cb_data_ : Option Nat
  queue_ : Option GstDataQueue
  config_ : GstTensorsConfig
  worker_exited : Bool
  written : List Tensors
deriving DecidableEq, Repr

/-- The constructor (lines 45-51); `config_init` is the state
`gst_tensors_config_init` leaves `config_` in. -/
def NNStreamerRPC.init (config_init : GstTensorsConfig) (is_server : Bool)
    (host : String) (port : Int) : NNStreamerRPC :=
  { is_server_ := is_server
    host_ := host
    port_ := port
    server_ := false
    stub_ := false
    worker_ := false
    cb_ := none
    cb_data_ := none
    queue_ := none
    config_ := config_init
    worker_exited := false
    written := [] }

/-- `NNStreamerRPC::_start_server` (lines 141-159); `built` tells whether
`BuildAndStart` returned a server. -/
def NNStreamerRPC._start_server (self : NNStreamerRPC) (built : Bool) :
    Bool × NNStreamerRPC :=
  if built = false then (false, { self with server_ := false })
  else (true, { self with server_ := true })

/-- `NNStreamerRPC::_start_client` (lines 162-180); `stub` tells whether
`NewStub` returned a stub.  The queue is replaced by a new one and the worker
thread is assigned to `worker_`: assigning to a joinable `std::thread` calls
`std::terminate`. -/
def NNStreamerRPC._start_client (self : NNStreamerRPC) (stub : Bool) :
    Except Fault (Bool × NNStreamerRPC) :=
  if stub = false then .ok (false, { self with stub_ := false })
  else if self.worker_ then .error .thread_terminate
  else
    .ok (true, { self with
      stub_ := true
      queue_ := some gst_data_queue_new
      worker_ := true
      worker_exited := false })

/-- `NNStreamerRPC::start` (lines 98-103); `handle` is the outcome of creating
the server or the stub. -/
def NNStreamerRPC.start (self : NNStreamerRPC) (handle : Bool) :
    Except Fault (Bool × NNStreamerRPC) :=
  if self.is_server_ then .ok (self._start_server handle)
  else self._start_client handle

/-- `NNStreamerRPC::stop` (lines 106-109). -/
def NNStreamerRPC.stop (self : NNStreamerRPC) : NNStreamerRPC :=
  match self.queue_ with
  | some queue => { self with queue_ := some (gst_data_queue_set_flushing queue true) }
  | none => self

/-- `NNStreamerRPC::send` (lines 112-127): the queue is the one `_start_client`
created with `_data_queue_check_full_cb`; line 117 stores the `gsize` of
`gst_buffer_get_size` in the `guint` field `size` of the item. -/
def NNStreamerRPC.send (self : NNStreamerRPC) (buffer : GstBuffer) :
    Except Fault (Bool × NNStreamerRPC) :=
  let item : GstDataQueueItem :=
    { object := buffer, size := guint buffer.length, visible := true }
  match gst_data_queue_push _data_queue_check_full_cb self.queue_ item with
  | .error f => .error f
  | .ok (false, _) => .ok (false, self)
  | .ok (true, queue) => .ok (true, { self with queue_ := some queue })

/-- `NNStreamerRPC::setCallback` (lines 130-133). -/
def NNStreamerRPC.setCallback (self : NNStreamerRPC) (cb cb_data : Option Nat) :
    NNStreamerRPC :=
  { self with cb_ := cb, cb_data_ := cb_data }

/-- `NNStreamerRPC::setConfig` (lines 135-137). -/
def NNStreamerRPC.setConfig (self : NNStreamerRPC) (config : GstTensorsConfig) :
    NNStreamerRPC :=
  { self with config_ := config }

/-- One turn of the `while` loop of `NNStreamerRPC::_writer_thread` (lines
233-242), taken by the worker thread while it runs: pop, encode, write.  On the
flushing signal the thread leaves the loop. -/
def NNStreamerRPC._writer_thread (P : Platform) (self : NNStreamerRPC) :
    Except Fault NNStreamerRPC :=
  if self.worker_ = false ∨ self.worker_exited = true then .ok self
  else
    match gst_data_queue_pop self.queue_ with
    | .error f => .error f
    | .ok .flushing => .ok { self with worker_exited := true }
    | .ok .waiting => .ok self
    | .ok (.item item queue) =>
      match _get_tensors_from_buffer P self.config_ item.object with
      | .error f => .error f
      | .ok tensors =>
        .ok { self with queue_ := some queue, written := self.written ++ [tensors] }

/-- `_grpc_new` (lines 285-293); a NULL `host` is `none`. -/
def _grpc_new (config_init : GstTensorsConfig) (server : Bool) (host : Option String)
    (port : Int) : Option NNStreamerRPC :=
  match host with
  | none => none
  | some h => some (NNStreamerRPC.init config_init server h port)

/-- `_grpc_set_callback` (lines 311-319). -/
def _grpc_set_callback (priv : Option NNStreamerRPC) (cb cb_data : Option Nat) :
    Option NNStreamerRPC :=
  match priv with
  | none => none
  | some self => some (self.setCallback cb cb_data)

/-- `_grpc_set_config` (lines 324-332). -/
def _grpc_set_config (priv : Option NNStreamerRPC) (config : GstTensorsConfig) :
    Option NNStreamerRPC :=
  match priv with
  | none => none
  | some self => some (self.setConfig config)

/-- `_grpc_start` (lines 337-345). -/
def _grpc_start (priv : Option NNStreamerRPC) (handle : Bool) :
    Except Fault (Bool × Option NNStreamerRPC) :=
  match priv with
  | none => .ok (false, none)
  | some self =>
    match self.start handle with
    | .error f => .error f
    | .ok (r, self1) => .ok (r, some self1)

/-- `_grpc_stop` (lines 350-358). -/
def _grpc_stop (priv : Option NNStreamerRPC) : Option NNStreamerRPC :=
  match priv with
  | none => none
  | some self => some self.stop

/-- `_grpc_send` (lines 363-371). -/
def _grpc_send (priv : Option NNStreamerRPC) (buffer : GstBuffer) :
    Except Fault (Bool × Option NNStreamerRPC) :=
  match priv with
  | none => .ok (false, none)
  | some self =>
    match self.send buffer with
    | .error f => .error f
    | .ok (r, self1) => .ok (r, some self1)

/-- What can happen next to a handle: a call of the facade by the pipeline
thread, or one turn of the worker thread. -/
inductive Event where
  | set_config (config : GstTensorsConfig)
  | set_callback (cb cb_data : Option Nat)
  | start (handle : Bool)
  | send (buffer : GstBuffer)
  | stop
  | writer_turn
deriving DecidableEq, Repr

/-- One event on the handle `priv`: the value the call returns (none for a
`void` call or a worker turn) and the handle afterwards. -/
def step (P : Platform) (priv : Option NNStreamerRPC) :
    Event → Except Fault (Option Bool × Option NNStreamerRPC)
  | .set_config config => .ok (none, _grpc_set_config priv config)
  | .set_callback cb cb_data => .ok (none, _grpc_set_callback priv cb cb_data)
  | .start handle =>
    match _grpc_start priv handle with
    | .error f => .error f
    | .ok (r, priv1) => .ok (some r, priv1)
  | .send buffer =>
    match _grpc_send priv buffer with
    | .error f => .error f
    | .ok (r, priv1) => .ok (some r, priv1)
  | .stop => .ok (none, _grpc_stop priv)
  | .writer_turn =>
    match priv with
    | none => .ok (none, none)
    | some self =>
      match self._writer_thread P with
      | .error f => .error f
      | .ok self1 => .ok (none, some self1)

/-- A sequence of events, in order; the run ends at the first fault. -/
def run (P : Platform) : Option NNStreamerRPC → List Event →
    Except Fault (List (Option Bool) × Option NNStreamerRPC)
  | priv, [] => .ok ([], priv)
  | priv, e :: es =>
    match step P priv e with
    | .error f => .error f
    | .ok (r, priv1) =>
      match run P priv1 es with
      | .error f => .error f
      | .ok (rs, priv2) => .ok (r :: rs, priv2)

/-- The values returned along a run, none when the run ends in a fault. -/
def returns (P : Platform) (priv : Option NNStreamerRPC) (evs : List Event) :
    Option (List (Option Bool)) :=
  match run P priv evs with
  | .ok (rs, _) => some rs
  | .error _ => none

/-- The buffers of the `send` calls that returned TRUE, in call order. -/
def accepted : List Event → List (Option Bool) → List GstBuffer
  | .send buffer :: es, some true :: rs => buffer :: accepted es rs
  | _ :: es, _ :: rs => accepted es rs
  | _, _ => []

/-- What every handle built by `_grpc_new` keeps: a server object has no queue,
and a queue exists only together with a joinable worker thread. -/
def consistent : Option NNStreamerRPC → Prop
  | none => True
  | some self =>
    (self.is_server_ = true → self.queue_ = none) ∧
    (self.queue_ ≠ none → self.worker_ = true)

/-- The handle has seen a successful `start`: a server object, or a client
object with its queue and worker thread. -/
def started : Option NNStreamerRPC → Prop
  | none => True
  | some self =>
    match self.queue_ with
    | none => self.is_server_ = true
    | some _ => self.worker_ = true

/-- The handle has seen a successful `start` and then a `stop`: if a queue
exists it is flushing. -/
def stopped : Option NNStreamerRPC → Prop
  | none => True
  | some self =>
    match self.queue_ with
    | none => self.is_server_ = true
    | some queue => queue.flushing = true ∧ self.worker_ = true

/-! ## Sample inputs -/

/-- An unused entry of `info[]`. -/
def unused_info : GstTensorInfo :=
  { name := none, type := 10, dimension := [0, 0, 0, 0] }

/-- The state `gst_tensors_config_init` leaves a config in on the 64-bit target. -/
def config_init : GstTensorsConfig :=
  { info := { num_tensors := 0, info := List.replicate 16 unused_info }
    rate_n := -1
    rate_d := -1 }

/-- A format of two tensors, uint8 `[2,1,1,1]` and float32 `[1,1,1,1]`, at 30/1. -/
def config_two : GstTensorsConfig :=
  { info :=
      { num_tensors := 2
        info := [{ name := none, type := 5, dimension := [2, 1, 1, 1] },
                 { name := none, type := 7, dimension := [1, 1, 1, 1] }]
                ++ List.replicate 14 unused_info }
    rate_n := 30
    rate_d := 1 }

/-- A format of three uint8 tensors whose second one has `2 ^ 64 - 1` elements
(`4294967295 * 641 * 6700417`). -/
def config_wrap : GstTensorsConfig :=
  { info :=
      { num_tensors := 3
        info := [{ name := none, type := 5, dimension := [1, 1, 1, 1] },
                 { name := none, type := 5, dimension := [4294967295, 641, 6700417, 1] },
                 { name := none, type := 5, dimension := [2, 1, 1, 1] }]
                ++ List.replicate 13 unused_info }
    rate_n := 30
    rate_d := 1 }

/-- A format of one uint8 tensor of `65536 * 65536 = 2 ^ 32` bytes. -/
def config_large : GstTensorsConfig :=
  { info :=
      { num_tensors := 1
        info := [{ name := none, type := 5, dimension := [65536, 65536, 1, 1] }]
                ++ List.replicate 15 unused_info }
    rate_n := 30
    rate_d := 1 }

/-- A buffer of `2 ^ 32` zero bytes. -/
def buffer_large : GstBuffer :=
  List.replicate 4294967296 0

/-- A buffer of `2 ^ 32 + 5` zero bytes. -/
def buffer_larger : GstBuffer :=
  List.replicate 4294967301 0

/-- A wire frame that declares and carries 17 one-byte tensors. -/
def frame_seventeen : Tensors :=
  { num_tensor := 17
    fr := { rate_n := 30, rate_d := 1 }
    tensor := List.replicate 17
      { name := "Anonymous", type := 5, dimension := [1, 1, 1, 1], data := [0] } }

/-- A wire frame of one record that declares float32 `[4,1,1,1]` and carries 3 bytes. -/
def frame_one : Tensors :=
  { num_tensor := 1
    fr := { rate_n := 30, rate_d := 1 }
    tensor := [{ name := "x", type := 7, dimension := [4, 1, 1, 1], data := [9, 8, 7] }] }

/-- A started client session with an empty queue. -/
def client_started : NNStreamerRPC :=
  { NNStreamerRPC.init config_two false "localhost" 55115 with
    stub_ := true
    queue_ := some gst_data_queue_new
    worker_ := true }

/-- The started client with one 6-byte buffer queued. -/
def client_queued : NNStreamerRPC :=
  { client_started with
    queue_ := some
      { flushing := false
        items := [{ object := [1, 2, 3, 4, 5, 6], size := 6, visible := true }] } }

/-- The same client after `stop` and the worker turn that sees the flushing signal. -/
def client_flushed : NNStreamerRPC :=
  { client_queued with
    queue_ := some
      { flushing := true
        items := [{ object := [1, 2, 3, 4, 5, 6], size := 6, visible := true }] }
    worker_exited := true }

/-- The frame `_get_tensors_from_buffer` builds from a 6-byte buffer under `config_two`. -/
def frame_two (buffer : GstBuffer) : Tensors :=
  { num_tensor := 2
    fr := { rate_n := 30, rate_d := 1 }
    tensor := [{ name := "Anonymous", type := 5, dimension := [2, 1, 1, 1],
                 data := buffer.take 2 },
               { name := "Anonymous", type := 7, dimension := [1, 1, 1, 1],
                 data := (buffer.drop 2).take 4 }] }

/-- Three sends with two worker turns in between. -/
def fifo_events : List Event :=
  [.send [1, 2, 3, 4, 5, 6], .send [11, 12, 13, 14, 15, 16], .writer_turn,
   .send [21, 22, 23, 24, 25, 26], .writer_turn]

/-- What the calls of `fifo_events` return. -/
def fifo_returns : List (Option Bool) :=
  [some true, some true, none, some true, none]

/-- The started client after `fifo_events`: two frames written, the third buffer queued. -/
def client_fifo : NNStreamerRPC :=
  { client_started with
    queue_ := some
      { flushing := false
        items := [{ object := [21, 22, 23, 24, 25, 26], size := 6, visible := true }] }
    written := [frame_two [1, 2, 3, 4, 5, 6], frame_two [11, 12, 13, 14, 15, 16]] }

/-! ## Reference quantities of the claims -/

/-- Byte size of tensor `i` of the format (0 when the array has no entry `i`). -/
def tensor_size (P : Platform) (cfg : GstTensorsConfig) (i : Nat) : Nat :=
  match cfg.info.info[i]? with
  | some info => gst_tensor_info_get_size P info
  | none => 0

/-- Offset of tensor `i` in the buffer: the sum of the byte sizes of the tensors before it. -/
def tensor_offset (P : Platform) (cfg : GstTensorsConfig) : Nat → Nat
  | 0 => 0
  | i + 1 => tensor_offset P cfg i + tensor_size P cfg i

/-- Total byte size the format declares: the offset just past its last tensor. -/
def total_size (P : Platform) (cfg : GstTensorsConfig) : Nat :=
  tensor_offset P cfg cfg.info.num_tensors

/-- The bytes of tensor `i` in the buffer: `[off_i, off_i + size_i)`. -/
def tensor_slice (P : Platform) (cfg : GstTensorsConfig) (buffer : GstBuffer) (i : Nat) :
    List UInt8 :=
  (buffer.drop (tensor_offset P cfg i)).take (tensor_size P cfg i)

/-! ## Server-role handler -/

/-- One invocation of the delivery callback, `cb_ (cb_data_, memory)`: the
function called, the context and the slots handed over. -/
structure Delivery where
  cb : Nat
  cb_data : Option Nat
  memory : List (Option GstTensorMemory)
deriving DecidableEq, Repr

/-- The `grpc::Status` values the handler returns. -/
inductive Status where
  | OK
deriving DecidableEq, Repr

/-- `NNStreamerRPC::SendTensors` (lines 65-88) over the frames that
`reader->Read` yields before it returns false: each frame is decoded into
`memory` and, if `cb_` is set, handed to it with `cb_data_`; then `Status::OK`.
The result lists the callback invocations in order. -/
def NNStreamerRPC.SendTensors (P : Platform) (self : NNStreamerRPC) :
    List Tensors → Except Fault (List Delivery × Status)
  | [] => .ok ([], .OK)
  | tensors :: rest =>
    match SendTensors_memory P tensors with
    | .error f => .error f
    | .ok memory =>
      match NNStreamerRPC.SendTensors P self rest with
      | .error f => .error f
      | .ok (calls, status) =>
        match self.cb_ with
        | some cb => .ok ({ cb := cb, cb_data := self.cb_data_, memory := memory } :: calls, status)
        | none => .ok (calls, status)

/-! ## More sample inputs -/

/-- A shape as a `tensor_dim` holds it: its sizes, then 1 up to `NNS_TENSOR_RANK_LIMIT`
entries (shape `[4]` is `4:1:1:1`). -/
def shape_dimension (P : Platform) (shape : List Nat) : List Nat :=
  shape ++ List.replicate (P.NNS_TENSOR_RANK_LIMIT - shape.length) 1

/-- The format of the scenario: one float32 tensor of shape `[4]` at 30/1. -/
def config_scenario : GstTensorsConfig :=
  { info :=
      { num_tensors := 1
        info := [{ name := none, type := 7, dimension := shape_dimension lp64 [4] }]
                ++ List.replicate 15 unused_info }
    rate_n := 30
    rate_d := 1 }

/-- Four `1.0f` values (`0x3F800000`) as a little-endian host lays them out: 16 bytes. -/
def four_floats : GstBuffer :=
  [0, 0, 128, 63, 0, 0, 128, 63, 0, 0, 128, 63, 0, 0, 128, 63]

/-- The frame of the scenario: one record of shape `[4]` carrying the 16 bytes. -/
def frame_scenario : Tensors :=
  { num_tensor := 1
    fr := { rate_n := 30, rate_d := 1 }
    tensor := [{ name := "Anonymous", type := 7, dimension := shape_dimension lp64 [4],
                 data := four_floats }] }

/-- What `_get_tensors_from_buffer` builds under `config_two` from a 1-byte
buffer: two tensors declared, one record (the header of the first) present. -/
def frame_short : Tensors :=
  { num_tensor := 2
    fr := { rate_n := 30, rate_d := 1 }
    tensor := [{ name := "Anonymous", type := 5, dimension := [2, 1, 1, 1], data := [] }] }

/-- A server object with a delivery callback (function 1, context 2) registered. -/
def server_with_cb : NNStreamerRPC :=
  { NNStreamerRPC.init config_init true "localhost" 55115 with
    cb_ := some 1
    cb_data_ := some 2 }

/-! ## NTP utility (`gst/mqtt/ntp_util.c`) -/

/-- `NTP_TIMESTAMP_DELTA` (line 108): the seconds from 1900 to 1970. -/
def NTP_TIMESTAMP_DELTA : Nat := 2208988800

/-- `ntp_timestamp_t` (lines 36-40): the two 32-bit fields, each as the value the
host reads from the packet memory. -/
structure ntp_timestamp_t where
  sec : Nat
  frac : Nat
deriving DecidableEq, Repr

/-- `ntp_packet_t` (lines 93-106), as it lies in memory after `read`. -/
structure ntp_packet_t where
  li_vn_mode : Nat
  stratum : Nat
  poll : Nat
  precision : Nat
  root_delay : Nat
  root_dispersion : Nat
  ref_id : Nat
  ref_ts : ntp_timestamp_t
  org_ts : ntp_timestamp_t
  recv_ts : ntp_timestamp_t
  xmit_ts : ntp_timestamp_t
deriving DecidableEq, Repr

/-- `ntohl` on a 32-bit value: the bytes reversed on a little-endian host, the
value itself on a big-endian host. -/
def ntohl (little_endian : Bool) (x : Nat) : Nat :=
  if little_endian then
    (x % 256) * 2 ^ 24 + (x / 2 ^ 8 % 256) * 2 ^ 16 + (x / 2 ^ 16 % 256) * 2 ^ 8
      + x / 2 ^ 24 % 256
  else x % 2 ^ 32

/-- The cast `(time_t)` of a 64-bit unsigned value, `time_t` being 64 bits wide. -/
def time_t_of_uint64 (v : Nat) : Int :=
  if v % 2 ^ 64 < 2 ^ 63 then (v % 2 ^ 64 : Nat) else (v % 2 ^ 64 : Nat) - 2 ^ 64

/-- The host and what the calls of `ntp_util_get_epoch` meet: the byte order,
the values `socket`, `connect`, `write` and `read` return, the names
`gethostbyname` resolves, `h_errno` and `errno` after a failing call, and the
packet memory after `read`. -/
structure ntp_calls where
  little_endian : Bool
  socket : Int
  resolves : String → Bool
  h_errno : Int
  connect : Int
  write : Int
  read : Int
  errno : Int
  response : ntp_packet_t

/-- The name `ntp_default_hname` (line 110). -/
def ntp_default_hname : String := "pool.ntp.org"

/-- `ntp_util_get_epoch` (lines 114-212); `hosts` stands for the `hnums` pairs
of `hnames[i]` and `ports[i]`.  The value returned on the success path is
`(time_t) (packet.xmit_ts.sec - NTP_TIMESTAMP_DELTA)` (line 200), computed in
`uint64_t` from the field as it lies in memory. -/
def ntp_util_get_epoch (env : ntp_calls) (hosts : List (String × Nat)) : Int :=
  if env.socket < 0 then -1
  else if (hosts.find? (fun h => env.resolves h.1)).isNone ∧
      env.resolves ntp_default_hname = false then -env.h_errno
  else if env.connect < 0 then -env.errno
  else if env.write < 0 then -env.errno
  else if env.read < 0 then -env.errno
  else
    time_t_of_uint64
      ((env.response.xmit_ts.sec % 2 ^ 32 + 2 ^ 64 - NTP_TIMESTAMP_DELTA) % 2 ^ 64)

/-- The value `txTm` of the reference client (`tmp/ntp_client_example.c`, lines
150-159) from the same packet memory, whose `txTm_s` lies where `xmit_ts.sec`
does: `txTm_s = ntohl (txTm_s)`, then `(time_t) (txTm_s - NTP_TIMESTAMP_DELTA)`. -/
def ntp_client_example_txTm (little_endian : Bool) (packet : ntp_packet_t) : Int :=
  time_t_of_uint64
    ((ntohl little_endian packet.xmit_ts.sec + 2 ^ 64 - NTP_TIMESTAMP_DELTA) % 2 ^ 64)

/-- A timestamp of zero seconds and zero fraction. -/
def ntp_zero : ntp_timestamp_t := { sec := 0, frac := 0 }

/-- A little-endian host on which every call succeeds and the server answers
with the transmit seconds 3835382400 (2021-07-16 00:00:00 UTC), the wire bytes
`E4 9B 4A 80`, which the host reads as `0x804A9BE4 = 2152373220`. -/
def ntp_calls_sample : ntp_calls :=
  { little_endian := true
    socket := 3
    resolves := fun _ => true
    h_errno := 0
    connect := 0
    write := 48
    read := 48
    errno := 0
    response :=
      { li_vn_mode := 28
        stratum := 2
        poll := 0
        precision := 0
        root_delay := 0
        root_dispersion := 0
        ref_id := 0
        ref_ts := ntp_zero
        org_ts := ntp_zero
        recv_ts := ntp_zero
        xmit_ts := { sec := 2152373220, frac := 0 } } }

/-! ## Image-segment decoder (`tensordec-imagesegment.c`) -/

/-- `TFLITE_DEEPLAB_IMAGE_WIDTH` (line 46). -/
def TFLITE_DEEPLAB_IMAGE_WIDTH : Nat := 257

/-- `TFLITE_DEEPLAB_IMAGE_HEIGHT` (line 47). -/
def TFLITE_DEEPLAB_IMAGE_HEIGHT : Nat := 257

/-- `TFLITE_DEEPLAB_IMAGE_SEGMENT` of `image_segment_modes` (line 54). -/
def TFLITE_DEEPLAB_IMAGE_SEGMENT : Int := 0

/-- `UNKNOWN_IMAGE_SEGMENT` of `image_segment_modes` (line 55). -/
def UNKNOWN_IMAGE_SEGMENT : Int := 1

/-- `is_modes` (lines 61-64), without the closing NULL. -/
def is_modes : List String := ["tflite-deeplab"]

/-- `image_segments` (lines 69-81); `segment_map` is NULL or the rows allocated. -/
structure image_segments where
  mode : Int
  segment_map : Option (List (List Nat))
  o_width : Nat
  o_height : Nat
  i_width : Nat
  i_height : Nat
deriving DecidableEq, Repr

/-- The helpers of nnstreamer that `is_setOption` calls and that are not under
src: `find_key_strv` (index of the key in the list, -1 if absent) and
`gst_tensor_parse_dimension` (the rank it returns and the `dim` it fills). -/
structure decoder_helpers where
  find_key_strv : List String → Option String → Int
  gst_tensor_parse_dimension : Option String → Nat × List Nat

/-- `_init_modes` (lines 84-101). -/
def _init_modes (idata : image_segments) : Bool × image_segments :=
  if idata.mode = TFLITE_DEEPLAB_IMAGE_SEGMENT then
    (true, { idata with
      i_width := TFLITE_DEEPLAB_IMAGE_WIDTH
      i_height := TFLITE_DEEPLAB_IMAGE_HEIGHT
      o_width := TFLITE_DEEPLAB_IMAGE_WIDTH
      o_height := TFLITE_DEEPLAB_IMAGE_HEIGHT
      segment_map := some (List.replicate TFLITE_DEEPLAB_IMAGE_HEIGHT
        (List.replicate TFLITE_DEEPLAB_IMAGE_WIDTH 0)) })
  else (true, idata)

/-- `is_init` (lines 104-119): the value returned and the object `*pdata` points to. -/
def is_init : Bool × image_segments :=
  (true, { mode := UNKNOWN_IMAGE_SEGMENT
           segment_map := none
           o_width := 0
           o_height := 0
           i_width := 0
           i_height := 0 })

/-- A read of `segment_map[i]` outside the rows allocated. -/
inductive RowFault where
  | row_index (i : Nat)
deriving DecidableEq, Repr

/-- The `for` loop of `_free_segment_map` (lines 128-130) with `n` turns left at
row `i`: the number of rows handed to `g_free`. -/
def free_rows (rows : List (List Nat)) : Nat → Nat → Except RowFault Nat
  | 0, _ => .ok 0
  | n + 1, i =>
    match rows[i]? with
    | none => .error (.row_index i)
    | some _ =>
      match free_rows rows n (i + 1) with
      | .ok k => .ok (k + 1)
      | .error f => .error f

/-- `_free_segment_map` (lines 122-135): the number of rows freed and the object
afterwards. -/
def _free_segment_map (idata : image_segments) : Except RowFault (Nat × image_segments) :=
  match idata.segment_map with
  | some rows =>
    match free_rows rows idata.i_height 0 with
    | .ok k => .ok (k, { idata with segment_map := none })
    | .error f => .error f
  | none => .ok (0, { idata with segment_map := none })

/-- `is_setOption` (lines 150-224); a NULL `param` is `none`. -/
def is_setOption (H : decoder_helpers) (idata : image_segments) (op_num : Int)
    (param : Option String) : Bool × image_segments :=
  if op_num = 0 then
    let previous := idata.mode
    let idata1 := { idata with mode := H.find_key_strv is_modes param }
    if param = none ∨ param = some "" then (false, idata1)
    else if idata1.mode ≠ previous ∧ idata1.mode ≠ UNKNOWN_IMAGE_SEGMENT then
      _init_modes idata1
    else (true, idata1)
  else if op_num = 1 then
    let parsed := H.gst_tensor_parse_dimension param
    let idata1 := { idata with o_width := 0, o_height := 0 }
    if param = none ∨ param = some "" then (true, idata1)
    else if parsed.1 < 2 then (true, idata1)
    else (true, { idata1 with o_width := parsed.2.getD 0 0, o_height := parsed.2.getD 1 0 })
  else if op_num = 2 then
    let parsed := H.gst_tensor_parse_dimension param
    let idata1 := { idata with i_width := 0, i_height := 0 }
    if param = none ∨ param = some "" then (true, idata1)
    else if parsed.1 < 2 then (true, idata1)
    else (true, { idata1 with i_width := parsed.2.getD 0 0, i_height := parsed.2.getD 1 0 })
  else (true, idata)

/-- The object after a sequence of `is_setOption` calls, each an option number
with its parameter. -/
def set_options (H : decoder_helpers) :
    image_segments → List (Int × Option String) → image_segments
  | idata, [] => idata
  | idata, (op_num, param) :: rest => set_options H (is_setOption H idata op_num param).2 rest

/-- The helpers on the strings used below: the key is looked up as written, and
`"300:300"`, `"100:100"`, `"640:480:3"` and `"5"` parse as nnstreamer parses them
(missing entries of `dim` filled with 1). -/
def helpers_sample : decoder_helpers :=
  { find_key_strv := fun strv key =>
      match key with
      | none => -1
      | some k => if strv.indexOf k < strv.length then (strv.indexOf k : Nat) else -1
    gst_tensor_parse_dimension := fun param =>
      if param = some "300:300" then (2, [300, 300, 1, 1])
      else if param = some "100:100" then (2, [100, 100, 1, 1])
      else if param = some "640:480:3" then (3, [640, 480, 3, 1])
      else if param = some "5" then (1, [5, 1, 1, 1])
      else (0, [1, 1, 1, 1]) }

/-! ## Lemmas on the codec -/

theorem tensor_offset_mono (P : Platform) (cfg : GstTensorsConfig) (i n : Nat) :
    tensor_offset P cfg i ≤ tensor_offset P cfg (i + n) := by
  induction n with
  | zero => exact Nat.le_refl _
  | succ n ih =>
    have : tensor_offset P cfg (i + (n + 1)) =
        tensor_offset P cfg (i + n) + tensor_size P cfg (i + n) := rfl
    omega

theorem tensor_slice_length (P : Platform) (cfg : GstTensorsConfig) (buffer : GstBuffer)
    (i : Nat) (h : tensor_offset P cfg (i + 1) ≤ buffer.length) :
    (tensor_slice P cfg buffer i).length = tensor_size P cfg i := by
  have h1 : tensor_offset P cfg (i + 1) = tensor_offset P cfg i + tensor_size P cfg i := rfl
  simp only [tensor_slice, List.length_take, List.length_drop]
  omega

/-- With room for every remaining tensor the loop adds one full record per tensor. -/
theorem tensors_from_full (P : Platform) (cfg : GstTensorsConfig) (buffer : GstBuffer)
    (hw : buffer.length < 2 ^ P.gsize_bits) :
    ∀ n i, i + n ≤ cfg.info.info.length →
      tensor_offset P cfg (i + n) ≤ buffer.length →
      ∃ ts, tensors_from P cfg buffer n i (tensor_offset P cfg i) = .ok ts ∧
        ts.length = n ∧
        ∀ k, k < n → ∃ info, cfg.info.info[i + k]? = some info ∧
          ts[k]? = some { tensor_header P info with data := tensor_slice P cfg buffer (i + k) } := by
  intro n
  induction n with
  | zero =>
    intro i _ _
    exact ⟨[], rfl, rfl, fun k hk => absurd hk (Nat.not_lt_zero k)⟩
  | succ n ih =>
    intro i hlen hroom
    have hi : i < cfg.info.info.length := by omega
    obtain ⟨info, hinfo⟩ : ∃ info, cfg.info.info[i]? = some info :=
      ⟨cfg.info.info[i], List.getElem?_eq_getElem hi⟩
    have hsz : tensor_size P cfg i = gst_tensor_info_get_size P info := by
      simp [tensor_size, hinfo]
    have hstep : tensor_offset P cfg (i + 1) =
        tensor_offset P cfg i + gst_tensor_info_get_size P info := by
      rw [← hsz]; rfl
    have hmono : tensor_offset P cfg (i + 1) ≤ tensor_offset P cfg (i + 1 + n) :=
      tensor_offset_mono P cfg (i + 1) n
    have hroom1 : tensor_offset P cfg (i + 1 + n) ≤ buffer.length := by
      have : i + 1 + n = i + (n + 1) := by omega
      rw [this]; exact hroom
    have hfit : tensor_offset P cfg i + gst_tensor_info_get_size P info ≤ buffer.length := by
      omega
    have hmod : (tensor_offset P cfg i + gst_tensor_info_get_size P info) % 2 ^ P.gsize_bits
        = tensor_offset P cfg (i + 1) := by
      rw [hstep]; exact Nat.mod_eq_of_lt (by omega)
    obtain ⟨rest, hrest, hrlen, hrk⟩ := ih (i + 1) (by omega) hroom1
    refine ⟨{ tensor_header P info with data := tensor_slice P cfg buffer i } :: rest, ?_, ?_, ?_⟩
    · rw [tensors_from, hinfo]
      simp only [hmod]
      rw [if_neg (by omega), if_pos hfit, hrest]
      simp [tensor_slice, hsz]
    · simp [hrlen]
    · intro k hk
      cases k with
      | zero => exact ⟨info, by simpa using hinfo, by simp⟩
      | succ k =>
        obtain ⟨info2, h1, h2⟩ := hrk k (by omega)
        have : i + (k + 1) = i + 1 + k := by omega
        exact ⟨info2, by rw [this]; exact h1, by rw [this]; simpa using h2⟩

/-- With a record and a slot for every remaining index the decode loop fills
exactly the slots `i .. i + n - 1`. -/
theorem memory_from_full (tensors : Tensors) :
    ∀ n i (memory : List (Option GstTensorMemory)), i + n ≤ tensors.tensor.length →
      i + n ≤ memory.length →
      ∃ m, memory_from tensors n i memory = .ok m ∧ m.length = memory.length ∧
        (∀ k, i ≤ k → k < i + n → ∃ t, tensors.tensor[k]? = some t ∧
          m[k]? = some (some { data := g_memdup t.data t.data.length,
                               size := t.data.length })) ∧
        (∀ k, (k < i ∨ i + n ≤ k) → m[k]? = memory[k]?) := by
  intro n
  induction n with
  | zero =>
    intro i memory _ _
    exact ⟨memory, rfl, rfl, fun k h1 h2 => by omega, fun k _ => rfl⟩
  | succ n ih =>
    intro i memory hrec hslot
    have hi : i < tensors.tensor.length := by omega
    obtain ⟨t, ht⟩ : ∃ t, tensors.tensor[i]? = some t :=
      ⟨tensors.tensor[i], List.getElem?_eq_getElem hi⟩
    have him : i < memory.length := by omega
    obtain ⟨m, hm, hmlen, hin, hout⟩ :=
      ih (i + 1) (memory.set i (some ⟨g_memdup t.data t.data.length, t.data.length⟩))
        (by omega) (by simp; omega)
    refine ⟨m, ?_, ?_, ?_, ?_⟩
    · rw [memory_from, ht]
      simp only [if_pos him]
      exact hm
    · simpa using hmlen
    · intro k hk1 hk2
      by_cases hki : k = i
      · subst hki
        refine ⟨t, ht, ?_⟩
        rw [hout k (Or.inl (by omega))]
        simp [him]
      · exact hin k (by omega) (by omega)
    · intro k hk
      rw [hout k (by omega)]
      have : i ≠ k := by omega
      simp [List.getElem?_set_ne this]

/-- A copy of fewer than `2 ^ 32` bytes is the whole of them. -/
theorem g_memdup_small (mem : List UInt8) (h : mem.length < 2 ^ 32) :
    g_memdup mem mem.length = mem := by
  unfold g_memdup guint
  rw [Nat.mod_eq_of_lt h]
  exact List.take_length mem

/-- An array of `n` dimensions is read back entry by entry. -/
theorem dimension_read (l : List Nat) (n : Nat) (h : l.length = n) :
    (List.range n).map (fun j => l.getD j 0) = l := by
  apply List.ext_getElem?
  intro k
  by_cases hk : k < n
  · have hk2 : k < l.length := by omega
    simp [List.getElem?_map, List.getElem?_range hk, List.getD_eq_getElem?_getD,
      List.getElem?_eq_getElem hk2]
  · have hk2 : l.length ≤ k := by omega
    rw [List.getElem?_eq_none hk2, List.getElem?_eq_none (by simpa using Nat.le_of_not_lt hk)]

/-! ## Claims on the frame codec -/

/-- The round trip without a bound on the tensor sizes: slot `i` holds what
`g_memdup` copies of the bytes of tensor `i`, with `size` its byte size. -/
theorem roundtrip_blobs (P : Platform) (cfg : GstTensorsConfig) (buffer : GstBuffer)
    (hwf : cfg.wf P) (hnum : cfg.info.num_tensors ≤ P.NNS_TENSOR_SIZE_LIMIT)
    (hw : buffer.length < 2 ^ P.gsize_bits) (hlen : buffer.length = total_size P cfg) :
    ∃ frame memory, _get_tensors_from_buffer P cfg buffer = .ok frame ∧
      SendTensors_memory P frame = .ok memory ∧
      memory.length = P.NNS_TENSOR_SIZE_LIMIT ∧
      (∀ i, i < cfg.info.num_tensors →
        (tensor_slice P cfg buffer i).length = tensor_size P cfg i ∧
        memory[i]? = some (some
          { data := g_memdup (tensor_slice P cfg buffer i) (tensor_size P cfg i)
            size := tensor_size P cfg i })) ∧
      (∀ i, cfg.info.num_tensors ≤ i → i < P.NNS_TENSOR_SIZE_LIMIT →
        memory[i]? = some none) := by
  have hroom : tensor_offset P cfg (0 + cfg.info.num_tensors) ≤ buffer.length := by
    rw [Nat.zero_add, hlen]; exact Nat.le_refl _
  obtain ⟨ts, hts, htlen, htk⟩ := tensors_from_full P cfg buffer hw cfg.info.num_tensors 0
    (by rw [hwf.1]; omega) hroom
  obtain ⟨m, hm, hmlen, hin, hout⟩ := memory_from_full
    { num_tensor := cfg.info.num_tensors
      fr := { rate_n := cfg.rate_n, rate_d := cfg.rate_d }
      tensor := ts } cfg.info.num_tensors 0 (List.replicate P.NNS_TENSOR_SIZE_LIMIT none)
    (by simp [htlen]) (by simpa using hnum)
  refine ⟨_, m, ?_, hm, by simpa using hmlen, ?_, ?_⟩
  · have h0 : tensor_offset P cfg 0 = 0 := rfl
    rw [h0] at hts
    simp [_get_tensors_from_buffer, hts]
  · intro i hi
    obtain ⟨t, ht, hmi⟩ := hin i (Nat.zero_le i) (by omega)
    obtain ⟨info, _, hti⟩ := htk i hi
    simp only [Nat.zero_add] at hti
    have hte : t = { tensor_header P info with data := tensor_slice P cfg buffer i } := by
      have h2 : ts[i]? = some t := ht
      rw [hti] at h2
      exact (Option.some.inj h2).symm
    have hmono := tensor_offset_mono P cfg (i + 1) (cfg.info.num_tensors - (i + 1))
    have he : i + 1 + (cfg.info.num_tensors - (i + 1)) = cfg.info.num_tensors := by omega
    rw [he] at hmono
    have hsl : (tensor_slice P cfg buffer i).length = tensor_size P cfg i :=
      tensor_slice_length P cfg buffer i (Nat.le_trans hmono (by simpa using hroom))
    refine ⟨hsl, ?_⟩
    rw [hmi, hte]
    simp only [hsl]
  · intro i hi1 hi2
    rw [hout i (Or.inr (by omega))]
    simp [List.getElem?_replicate, hi2]

/-- C1 as stated fails: on the 64-bit target, with one uint8 tensor of `2 ^ 32`
bytes and a buffer of that length, the encode puts all `2 ^ 32` bytes in the
record, and the decode stores `size = 2 ^ 32` with a copy of no bytes:
`g_memdup` takes its count as a `guint`, and `2 ^ 32` is 0 there. -/
theorem roundtrip_narrows_large_tensor :
    config_large.wf lp64 ∧
    config_large.info.num_tensors ≤ lp64.NNS_TENSOR_SIZE_LIMIT ∧
    buffer_large.length = total_size lp64 config_large ∧
    ∃ frame memory, _get_tensors_from_buffer lp64 config_large buffer_large = .ok frame ∧
      SendTensors_memory lp64 frame = .ok memory ∧
      memory[0]? = some (some { data := [], size := 4294967296 }) ∧
      (tensor_slice lp64 config_large buffer_large 0).length = 4294967296 := by
  have hl : buffer_large.length = 4294967296 := List.length_replicate _ _
  have ht : total_size lp64 config_large = 4294967296 := by decide
  have hsz : tensor_size lp64 config_large 0 = 4294967296 := by decide
  have hg : guint 4294967296 = 0 := by decide
  obtain ⟨frame, memory, h1, h2, _, h3, _⟩ :=
    roundtrip_blobs lp64 config_large buffer_large (by decide) (by decide)
      (by rw [hl]; decide) (by rw [hl, ht])
  obtain ⟨h4, h5⟩ := h3 0 (by decide)
  rw [hsz] at h4 h5
  refine ⟨by decide, by decide, by rw [hl, ht], frame, memory, h1, h2, ?_, h4⟩
  rw [h5]
  unfold g_memdup
  rw [hg]
  rfl

/-- C1, amended. Round trip: for a stream format whose tensor count is within
`NNS_TENSOR_SIZE_LIMIT` and whose tensors are each smaller than `2 ^ 32` bytes,
and a buffer whose length is the sum of the per-tensor byte sizes, decoding (the
per-frame loop of `SendTensors`) the frame that `_get_tensors_from_buffer`
builds fills exactly the slots `0 .. num_tensors - 1`, and blob `i` holds the
bytes of tensor `i` in the buffer with `size` the byte size of tensor `i`. -/
theorem roundtrip_recovers_blobs (P : Platform) (cfg : GstTensorsConfig) (buffer : GstBuffer)
    (hwf : cfg.wf P) (hnum : cfg.info.num_tensors ≤ P.NNS_TENSOR_SIZE_LIMIT)
    (hsmall : ∀ i, i < cfg.info.num_tensors → tensor_size P cfg i < 2 ^ 32)
    (hw : buffer.length < 2 ^ P.gsize_bits) (hlen : buffer.length = total_size P cfg) :
    ∃ frame memory, _get_tensors_from_buffer P cfg buffer = .ok frame ∧
      SendTensors_memory P frame = .ok memory ∧
      memory.length = P.NNS_TENSOR_SIZE_LIMIT ∧
      (∀ i, i < cfg.info.num_tensors → memory[i]? =
        some (some { data := tensor_slice P cfg buffer i, size := tensor_size P cfg i })) ∧
      (∀ i, cfg.info.num_tensors ≤ i → i < P.NNS_TENSOR_SIZE_LIMIT →
        memory[i]? = some none) := by
  obtain ⟨frame, memory, h1, h2, h3, h4, h5⟩ := roundtrip_blobs P cfg buffer hwf hnum hw hlen
  refine ⟨frame, memory, h1, h2, h3, ?_, h5⟩
  intro i hi
  obtain ⟨hsl, hmi⟩ := h4 i hi
  have hs := hsmall i hi
  rw [← hsl] at hs
  rw [hmi, ← hsl, g_memdup_small _ hs]

/-- Witness of C1: two tensors of 2 and 4 bytes in a 6-byte buffer. -/
theorem roundtrip_recovers_blobs_witness :
    config_two.wf lp64 ∧ ([1, 2, 3, 4, 5, 6] : GstBuffer).length = total_size lp64 config_two ∧
    (∀ i, i < config_two.info.num_tensors → tensor_size lp64 config_two i < 2 ^ 32) ∧
    ∃ frame memory, _get_tensors_from_buffer lp64 config_two [1, 2, 3, 4, 5, 6] = .ok frame ∧
      SendTensors_memory lp64 frame = .ok memory ∧
      memory.length = lp64.NNS_TENSOR_SIZE_LIMIT ∧
      (∀ i, i < config_two.info.num_tensors → memory[i]? =
        some (some { data := tensor_slice lp64 config_two [1, 2, 3, 4, 5, 6] i,
                     size := tensor_size lp64 config_two i })) ∧
      (∀ i, config_two.info.num_tensors ≤ i → i < lp64.NNS_TENSOR_SIZE_LIMIT →
        memory[i]? = some none) :=
  ⟨by decide, by decide, by decide,
    roundtrip_recovers_blobs lp64 config_two [1, 2, 3, 4, 5, 6]
      (by decide) (by decide) (by decide) (by decide) (by decide)⟩

/-- C2 at its failing input. On the 64-bit target, with three uint8 tensors of
1, `2 ^ 64 - 1` and 2 bytes and a 1-byte buffer (shorter than the declared
total), the second turn of the loop computes `data_ptr + tsize = 2 ^ 64`, which
is 0 as a `gsize`: the guard `data_ptr + tsize > map.size` does not fire and
`set_data` is asked for `2 ^ 64 - 1` bytes from offset 1, past the end of the
buffer; no frame is returned. -/
theorem truncation_guard_wraps :
    config_wrap.wf lp64 ∧
    ([7] : GstBuffer).length < total_size lp64 config_wrap ∧
    ([7] : GstBuffer).length < total_size lp64 config_wrap % 2 ^ lp64.gsize_bits ∧
    _get_tensors_from_buffer lp64 config_wrap [7] =
      .error (.buffer_read 1 18446744073709551615) := by
  refine ⟨by decide, by decide, by decide, ?_⟩
  rfl

/-- C3. Encode layout: for a stream format (tensor count within the limit) and
a buffer at least as long as the declared total size, the frame has one record
per format tensor, in order; record `i` carries the name "Anonymous", the type
and the dimensions of tensor `i`, and the buffer bytes `[off_i, off_i + size_i)`;
the frame-rate pair is the one of the format. -/
theorem encode_layout (P : Platform) (cfg : GstTensorsConfig) (buffer : GstBuffer)
    (hwf : cfg.wf P) (hnum : cfg.info.num_tensors ≤ P.NNS_TENSOR_SIZE_LIMIT)
    (hw : buffer.length < 2 ^ P.gsize_bits) (hlen : total_size P cfg ≤ buffer.length) :
    ∃ frame, _get_tensors_from_buffer P cfg buffer = .ok frame ∧
      frame.num_tensor = cfg.info.num_tensors ∧
      frame.tensor.length = cfg.info.num_tensors ∧
      frame.fr = { rate_n := cfg.rate_n, rate_d := cfg.rate_d } ∧
      ∀ i, i < cfg.info.num_tensors → ∃ info, cfg.info.info[i]? = some info ∧
        frame.tensor[i]? = some
          { name := "Anonymous"
            type := info.type
            dimension := info.dimension
            data := (buffer.drop (tensor_offset P cfg i)).take
              (gst_tensor_info_get_size P info) } := by
  have hroom : tensor_offset P cfg (0 + cfg.info.num_tensors) ≤ buffer.length := by
    rw [Nat.zero_add]; exact hlen
  obtain ⟨ts, hts, htlen, htk⟩ := tensors_from_full P cfg buffer hw cfg.info.num_tensors 0
    (by rw [hwf.1]; omega) hroom
  have h0 : tensor_offset P cfg 0 = 0 := rfl
  rw [h0] at hts
  refine ⟨{ num_tensor := cfg.info.num_tensors
            fr := { rate_n := cfg.rate_n, rate_d := cfg.rate_d }
            tensor := ts }, by simp only [_get_tensors_from_buffer, hts], rfl, htlen, rfl, ?_⟩
  intro i hi
  obtain ⟨info, hinfo, hti⟩ := htk i hi
  simp only [Nat.zero_add] at hti hinfo
  refine ⟨info, hinfo, ?_⟩
  have hdim : info.dimension.length = P.NNS_TENSOR_RANK_LIMIT :=
    hwf.2 info (List.getElem?_mem hinfo)
  have hd := dimension_read info.dimension P.NNS_TENSOR_RANK_LIMIT hdim
  show ts[i]? = _
  rw [hti]
  simp only [tensor_header, tensor_slice, tensor_size, hinfo, hd]

/-- Witness of C3: two tensors of 2 and 4 bytes in a 7-byte buffer. -/
theorem encode_layout_witness :
    config_two.wf lp64 ∧ total_size lp64 config_two ≤ ([1, 2, 3, 4, 5, 6, 7] : GstBuffer).length ∧
    ∃ frame, _get_tensors_from_buffer lp64 config_two [1, 2, 3, 4, 5, 6, 7] = .ok frame ∧
      frame.num_tensor = config_two.info.num_tensors ∧
      frame.tensor.length = config_two.info.num_tensors ∧
      frame.fr = { rate_n := config_two.rate_n, rate_d := config_two.rate_d } ∧
      ∀ i, i < config_two.info.num_tensors → ∃ info, config_two.info.info[i]? = some info ∧
        frame.tensor[i]? = some
          { name := "Anonymous"
            type := info.type
            dimension := info.dimension
            data := (List.drop (tensor_offset lp64 config_two i)
              ([1, 2, 3, 4, 5, 6, 7] : GstBuffer)).take (gst_tensor_info_get_size lp64 info) } :=
  ⟨by decide, by decide,
    encode_layout lp64 config_two [1, 2, 3, 4, 5, 6, 7]
      (by decide) (by decide) (by decide) (by decide)⟩

/-- C4 at its failing input. A wire frame that declares and carries 17 tensors
makes the decode loop of `SendTensors` store at `memory[16]`, outside the
`NNS_TENSOR_SIZE_LIMIT = 16` slots it allocated: the loop is bounded by the
declared `num_tensor` alone and rejects nothing. -/
theorem decode_stores_past_limit :
    frame_seventeen.num_tensor = 17 ∧ frame_seventeen.tensor.length = 17 ∧
    lp64.NNS_TENSOR_SIZE_LIMIT = 16 ∧
    SendTensors_memory lp64 frame_seventeen = .error (.memory_index 16) := by
  refine ⟨rfl, rfl, rfl, ?_⟩
  rfl

/-- C5. Decode content: for a wire frame (each record shorter than `2 ^ 32`
bytes, as every frame parsed from the wire is, a message being below 2 GiB)
whose declared `num_tensor` is at most `NNS_TENSOR_SIZE_LIMIT` and at most the
number of records it carries, the decode yields for each `i < num_tensor` a blob
whose `size` is the byte length of the data of record `i` and whose bytes are
that data; neither the type and shape of the record nor a configured format
enter the result. -/
theorem decode_content (P : Platform) (tensors : Tensors)
    (hwire : ∀ t ∈ tensors.tensor, t.data.length < 2 ^ 32)
    (hnum : tensors.num_tensor ≤ P.NNS_TENSOR_SIZE_LIMIT)
    (hrec : tensors.num_tensor ≤ tensors.tensor.length) :
    ∃ memory, SendTensors_memory P tensors = .ok memory ∧
      memory.length = P.NNS_TENSOR_SIZE_LIMIT ∧
      ∀ i, i < tensors.num_tensor → ∃ t, tensors.tensor[i]? = some t ∧
        memory[i]? = some (some { data := t.data, size := t.data.length }) := by
  obtain ⟨m, hm, hmlen, hin, _⟩ := memory_from_full tensors tensors.num_tensor 0
    (List.replicate P.NNS_TENSOR_SIZE_LIMIT none) (by omega) (by simpa using hnum)
  refine ⟨m, hm, by simpa using hmlen, fun i hi => ?_⟩
  obtain ⟨t, ht, hmi⟩ := hin i (Nat.zero_le i) (by omega)
  refine ⟨t, ht, ?_⟩
  rw [hmi, g_memdup_small t.data (hwire t (List.getElem?_mem ht))]

/-- Witness of C5: a frame of one record that declares float32 `[4,1,1,1]` and carries 3 bytes. -/
theorem decode_content_witness :
    (∀ t ∈ frame_one.tensor, t.data.length < 2 ^ 32) ∧
    ∃ memory, SendTensors_memory lp64 frame_one = .ok memory ∧
      memory.length = lp64.NNS_TENSOR_SIZE_LIMIT ∧
      ∀ i, i < frame_one.num_tensor → ∃ t, frame_one.tensor[i]? = some t ∧
        memory[i]? = some (some { data := t.data, size := t.data.length }) :=
  ⟨by decide, decode_content lp64 frame_one (by decide) (by decide) (by decide)⟩

/-! ## Lemmas on the session -/

theorem start_inv (s s1 : NNStreamerRPC) (handle r : Bool)
    (h : s.start handle = .ok (r, s1)) :
    s1.is_server_ = s.is_server_ ∧ s1.config_ = s.config_ ∧ s1.written = s.written ∧
    ((s1.queue_ = s.queue_ ∧ s1.worker_ = s.worker_ ∧ (r = true → s.is_server_ = true)) ∨
     (s.is_server_ = false ∧ s.worker_ = false ∧ s1.queue_ = some gst_data_queue_new ∧
       s1.worker_ = true)) := by
  unfold NNStreamerRPC.start at h
  by_cases hsrv : s.is_server_ = true
  · rw [if_pos hsrv] at h
    unfold NNStreamerRPC._start_server at h
    by_cases hb : handle = false
    · rw [if_pos hb] at h
      cases h
      exact ⟨rfl, rfl, rfl, Or.inl ⟨rfl, rfl, fun _ => hsrv⟩⟩
    · rw [if_neg hb] at h
      cases h
      exact ⟨rfl, rfl, rfl, Or.inl ⟨rfl, rfl, fun _ => hsrv⟩⟩
  · rw [if_neg hsrv] at h
    unfold NNStreamerRPC._start_client at h
    by_cases hb : handle = false
    · rw [if_pos hb] at h
      cases h
      exact ⟨rfl, rfl, rfl, Or.inl ⟨rfl, rfl, fun h => absurd h (by decide)⟩⟩
    · rw [if_neg hb] at h
      by_cases hw : s.worker_ = true
      · rw [if_pos hw] at h
        cases h
      · rw [if_neg hw] at h
        cases h
        exact ⟨rfl, rfl, rfl, Or.inr ⟨by simpa using hsrv, by simpa using hw, rfl, rfl⟩⟩

theorem send_inv (s s1 : NNStreamerRPC) (buffer : GstBuffer) (r : Bool)
    (h : s.send buffer = .ok (r, s1)) :
    ∃ q, s.queue_ = some q ∧ s1.is_server_ = s.is_server_ ∧ s1.worker_ = s.worker_ ∧
      s1.config_ = s.config_ ∧ s1.written = s.written ∧
      ((q.flushing = true ∧ r = false ∧ s1.queue_ = some q) ∨
       (q.flushing = false ∧ r = true ∧
         s1.queue_ = some { q with items := q.items ++
           [{ object := buffer, size := guint buffer.length, visible := true }] })) := by
  unfold NNStreamerRPC.send at h
  cases hq : s.queue_ with
  | none =>
    rw [hq] at h
    simp [gst_data_queue_push] at h
  | some q =>
    rw [hq] at h
    refine ⟨q, rfl, ?_⟩
    obtain ⟨fl, its⟩ := q
    cases fl with
    | true =>
      simp [gst_data_queue_push] at h
      obtain ⟨rfl, rfl⟩ := h
      exact ⟨rfl, rfl, rfl, rfl, Or.inl ⟨rfl, rfl, hq⟩⟩
    | false =>
      simp [gst_data_queue_push, _data_queue_check_full_cb] at h
      obtain ⟨rfl, rfl⟩ := h
      exact ⟨rfl, rfl, rfl, rfl, Or.inr ⟨rfl, rfl, rfl⟩⟩

theorem writer_inv (P : Platform) (s s1 : NNStreamerRPC)
    (h : s._writer_thread P = .ok s1) :
    s1.is_server_ = s.is_server_ ∧ s1.worker_ = s.worker_ ∧ s1.config_ = s.config_ ∧
    ((s1.queue_ = s.queue_ ∧ s1.written = s.written) ∨
     (∃ q item rest frame, s.queue_ = some q ∧ q.flushing = false ∧ q.items = item :: rest ∧
        _get_tensors_from_buffer P s.config_ item.object = .ok frame ∧
        s1.queue_ = some { q with items := rest } ∧ s1.written = s.written ++ [frame])) := by
  unfold NNStreamerRPC._writer_thread at h
  by_cases hw : s.worker_ = false ∨ s.worker_exited = true
  · rw [if_pos hw] at h
    cases h
    exact ⟨rfl, rfl, rfl, Or.inl ⟨rfl, rfl⟩⟩
  · rw [if_neg hw] at h
    cases hq : s.queue_ with
    | none =>
      rw [hq] at h
      simp [gst_data_queue_pop] at h
    | some q =>
      rw [hq] at h
      obtain ⟨fl, its⟩ := q
      cases fl with
      | true =>
        simp [gst_data_queue_pop] at h
        subst h
        exact ⟨rfl, rfl, rfl, Or.inl ⟨rfl, rfl⟩⟩
      | false =>
        cases its with
        | nil =>
          simp [gst_data_queue_pop] at h
          subst h
          exact ⟨rfl, rfl, rfl, Or.inl ⟨hq, rfl⟩⟩
        | cons item rest =>
          simp only [gst_data_queue_pop, Bool.false_eq_true, if_false] at h
          cases he : _get_tensors_from_buffer P s.config_ item.object with
          | error f =>
            rw [he] at h
            cases h
          | ok frame =>
            rw [he] at h
            cases h
            exact ⟨rfl, rfl, rfl,
              Or.inr ⟨⟨false, item :: rest⟩, item, rest, frame, rfl, rfl, rfl, he, rfl, rfl⟩⟩

theorem step_none_inv (P : Platform) (e : Event) (r : Option Bool)
    (priv1 : Option NNStreamerRPC) (hs : step P none e = .ok (r, priv1)) :
    priv1 = none ∧ ∀ buffer, e = .send buffer → r = some false := by
  cases e <;>
    simp [step, _grpc_set_config, _grpc_set_callback, _grpc_start, _grpc_stop, _grpc_send] at hs <;>
    obtain ⟨rfl, rfl⟩ := hs <;> simp

theorem step_some_inv (P : Platform) (s : NNStreamerRPC) (e : Event) (r : Option Bool)
    (priv1 : Option NNStreamerRPC) (hs : step P (some s) e = .ok (r, priv1)) :
    ∃ s1, priv1 = some s1 ∧
      match e with
      | .set_config c => r = none ∧ s1 = s.setConfig c
      | .set_callback a b => r = none ∧ s1 = s.setCallback a b
      | .start handle => ∃ r0, r = some r0 ∧ s.start handle = .ok (r0, s1)
      | .send buffer => ∃ r0, r = some r0 ∧ s.send buffer = .ok (r0, s1)
      | .stop => r = none ∧ s1 = s.stop
      | .writer_turn => r = none ∧ s._writer_thread P = .ok s1 := by
  cases e with
  | set_config c =>
    simp [step, _grpc_set_config] at hs
    obtain ⟨rfl, rfl⟩ := hs
    exact ⟨_, rfl, rfl, rfl⟩
  | set_callback a b =>
    simp [step, _grpc_set_callback] at hs
    obtain ⟨rfl, rfl⟩ := hs
    exact ⟨_, rfl, rfl, rfl⟩
  | start handle =>
    cases hst : s.start handle with
    | error f => simp [step, _grpc_start, hst] at hs
    | ok v =>
      obtain ⟨r0, s1⟩ := v
      simp [step, _grpc_start, hst] at hs
      obtain ⟨rfl, rfl⟩ := hs
      exact ⟨s1, rfl, r0, rfl, hst⟩
  | send buffer =>
    cases hst : s.send buffer with
    | error f => simp [step, _grpc_send, hst] at hs
    | ok v =>
      obtain ⟨r0, s1⟩ := v
      simp [step, _grpc_send, hst] at hs
      obtain ⟨rfl, rfl⟩ := hs
      exact ⟨s1, rfl, r0, rfl, hst⟩
  | stop =>
    simp [step, _grpc_stop] at hs
    obtain ⟨rfl, rfl⟩ := hs
    exact ⟨_, rfl, rfl, rfl⟩
  | writer_turn =>
    cases hst : s._writer_thread P with
    | error f => simp [step, hst] at hs
    | ok s1 =>
      simp [step, hst] at hs
      obtain ⟨rfl, rfl⟩ := hs
      exact ⟨s1, rfl, rfl, rfl⟩

theorem stop_inv (s : NNStreamerRPC) :
    s.stop.is_server_ = s.is_server_ ∧ s.stop.worker_ = s.worker_ ∧
    s.stop.config_ = s.config_ ∧ s.stop.written = s.written ∧
    s.stop.queue_ = s.queue_.map (fun q => { q with flushing := true }) := by
  unfold NNStreamerRPC.stop
  cases hq : s.queue_ <;> simp [hq, gst_data_queue_set_flushing]

theorem consistent_new (c : GstTensorsConfig) (server : Bool) (host : Option String)
    (port : Int) : consistent (_grpc_new c server host port) := by
  cases host <;> simp [_grpc_new, consistent, NNStreamerRPC.init]

theorem consistent_step (P : Platform) (priv priv1 : Option NNStreamerRPC) (e : Event)
    (r : Option Bool) (h : consistent priv) (hs : step P priv e = .ok (r, priv1)) :
    consistent priv1 := by
  cases priv with
  | none =>
    rw [(step_none_inv P e r priv1 hs).1]
    trivial
  | some s =>
    obtain ⟨s1, rfl, hev⟩ := step_some_inv P s e r priv1 hs
    simp only [consistent] at h ⊢
    cases e with
    | set_config c =>
      obtain ⟨_, rfl⟩ := hev
      exact h
    | set_callback a b =>
      obtain ⟨_, rfl⟩ := hev
      exact h
    | start handle =>
      obtain ⟨r0, _, hst⟩ := hev
      obtain ⟨h1, _, _, h2 | h2⟩ := start_inv s s1 handle r0 hst
      · rw [h1, h2.1, h2.2.1]; exact h
      · rw [h1, h2.1, h2.2.2.1, h2.2.2.2]; simp
    | send buffer =>
      obtain ⟨r0, _, hst⟩ := hev
      obtain ⟨q, hq, h1, h2, _, _, h3 | h3⟩ := send_inv s s1 buffer r0 hst
      · rw [h1, h2, h3.2.2, ← hq]; exact h
      · rw [h1, h2, h3.2.2]
        rw [hq] at h
        simpa using h
    | stop =>
      obtain ⟨_, rfl⟩ := hev
      obtain ⟨h1, h2, _, _, h3⟩ := stop_inv s
      rw [h1, h2, h3]
      cases hq : s.queue_ with
      | none => simp
      | some q => simpa [hq] using h
    | writer_turn =>
      obtain ⟨_, hst⟩ := hev
      obtain ⟨h1, h2, _, h3 | ⟨q, item, rest, frame, hq, _, _, _, h4, _⟩⟩ := writer_inv P s s1 hst
      · rw [h1, h2, h3.1]; exact h
      · rw [h1, h2, h4]
        rw [hq] at h
        simp at h ⊢
        exact h

theorem started_step (P : Platform) (priv priv1 : Option NNStreamerRPC) (e : Event)
    (r : Option Bool) (h : started priv) (hs : step P priv e = .ok (r, priv1)) :
    started priv1 := by
  cases priv with
  | none =>
    rw [(step_none_inv P e r priv1 hs).1]
    trivial
  | some s =>
    obtain ⟨s1, rfl, hev⟩ := step_some_inv P s e r priv1 hs
    simp only [started] at h ⊢
    cases e with
    | set_config c =>
      obtain ⟨_, rfl⟩ := hev
      exact h
    | set_callback a b =>
      obtain ⟨_, rfl⟩ := hev
      exact h
    | start handle =>
      obtain ⟨r0, _, hst⟩ := hev
      obtain ⟨h1, _, _, h2 | h2⟩ := start_inv s s1 handle r0 hst
      · rw [h1, h2.1, h2.2.1]; exact h
      · rw [h2.2.2.1]; exact h2.2.2.2
    | send buffer =>
      obtain ⟨r0, _, hst⟩ := hev
      obtain ⟨q, hq, h1, h2, _, _, h3 | h3⟩ := send_inv s s1 buffer r0 hst
      · rw [h1, h2, h3.2.2, ← hq]; exact h
      · rw [h3.2.2, h2]
        rw [hq] at h
        exact h
    | stop =>
      obtain ⟨_, rfl⟩ := hev
      obtain ⟨h1, h2, _, _, h3⟩ := stop_inv s
      rw [h1, h2, h3]
      cases hq : s.queue_ with
      | none => simpa [hq] using h
      | some q => simpa [hq] using h
    | writer_turn =>
      obtain ⟨_, hst⟩ := hev
      obtain ⟨h1, h2, _, h3 | ⟨q, item, rest, frame, hq, _, _, _, h4, _⟩⟩ := writer_inv P s s1 hst
      · rw [h1, h2, h3.1]; exact h
      · rw [h2, h4]
        rw [hq] at h
        exact h

theorem started_of_start (P : Platform) (priv priv1 : Option NNStreamerRPC) (handle : Bool)
    (h : consistent priv) (hs : step P priv (.start handle) = .ok (some true, priv1)) :
    started priv1 := by
  cases priv with
  | none =>
    rw [(step_none_inv P _ _ priv1 hs).1]
    trivial
  | some s =>
    obtain ⟨s1, rfl, r0, hr, hst⟩ := step_some_inv P s _ _ priv1 hs
    obtain ⟨h1, _, _, h2 | h2⟩ := start_inv s s1 handle r0 hst
    · have hsrv : s.is_server_ = true := h2.2.2 (Option.some.inj hr).symm
      simp only [started, consistent] at h ⊢
      rw [h1, h2.1, h.1 hsrv]
      exact hsrv
    · simp only [started]
      rw [h2.2.2.1]; exact h2.2.2.2

theorem stopped_of_stop (priv : Option NNStreamerRPC) (h : started priv) :
    stopped (_grpc_stop priv) := by
  cases priv with
  | none => trivial
  | some s =>
    simp only [_grpc_stop, stopped, started] at h ⊢
    obtain ⟨h1, h2, _, _, h3⟩ := stop_inv s
    rw [h1, h2, h3]
    cases hq : s.queue_ with
    | none => simpa [hq] using h
    | some q => simpa [hq] using h

theorem stopped_step (P : Platform) (priv priv1 : Option NNStreamerRPC) (e : Event)
    (r : Option Bool) (h : stopped priv) (hs : step P priv e = .ok (r, priv1)) :
    stopped priv1 ∧ ∀ buffer, e = .send buffer → r = some false := by
  cases priv with
  | none =>
    obtain ⟨h1, h2⟩ := step_none_inv P e r priv1 hs
    rw [h1]
    exact ⟨trivial, h2⟩
  | some s =>
    obtain ⟨s1, rfl, hev⟩ := step_some_inv P s e r priv1 hs
    simp only [stopped] at h ⊢
    cases e with
    | set_config c =>
      obtain ⟨_, rfl⟩ := hev
      exact ⟨h, fun _ hb => by cases hb⟩
    | set_callback a b =>
      obtain ⟨_, rfl⟩ := hev
      exact ⟨h, fun _ hb => by cases hb⟩
    | start handle =>
      obtain ⟨r0, _, hst⟩ := hev
      refine ⟨?_, fun _ hb => by cases hb⟩
      obtain ⟨h1, _, _, h2 | h2⟩ := start_inv s s1 handle r0 hst
      · rw [h1, h2.1, h2.2.1]; exact h
      · exfalso
        cases hq : s.queue_ with
        | none => simp [hq, h2.1] at h
        | some q => simp [hq, h2.2.1] at h
    | send buffer =>
      obtain ⟨r0, hr, hst⟩ := hev
      obtain ⟨q, hq, h1, h2, _, _, h3 | h3⟩ := send_inv s s1 buffer r0 hst
      · refine ⟨?_, fun _ _ => by rw [hr, h3.2.1]⟩
        rw [h1, h2, h3.2.2, ← hq]; exact h
      · exfalso
        rw [hq] at h
        simp [h3.1] at h
    | stop =>
      obtain ⟨_, rfl⟩ := hev
      refine ⟨?_, fun _ hb => by cases hb⟩
      obtain ⟨h1, h2, _, _, h3⟩ := stop_inv s
      rw [h1, h2, h3]
      cases hq : s.queue_ with
      | none => simpa [hq] using h
      | some q =>
        simp only [hq] at h
        simpa using h.2
    | writer_turn =>
      obtain ⟨_, hst⟩ := hev
      refine ⟨?_, fun _ hb => by cases hb⟩
      obtain ⟨h1, h2, _, h3 | ⟨q, item, rest, frame, hq, hf, _, _, h4, _⟩⟩ := writer_inv P s s1 hst
      · rw [h1, h2, h3.1]; exact h
      · exfalso
        rw [hq] at h
        simp [hf] at h

theorem run_cons_inv (P : Platform) (priv priv2 : Option NNStreamerRPC) (e : Event)
    (es : List Event) (rs : List (Option Bool))
    (h : run P priv (e :: es) = .ok (rs, priv2)) :
    ∃ r priv1 rs1, step P priv e = .ok (r, priv1) ∧ run P priv1 es = .ok (rs1, priv2) ∧
      rs = r :: rs1 := by
  unfold run at h
  cases hst : step P priv e with
  | error f => simp [hst] at h
  | ok v =>
    obtain ⟨r, priv1⟩ := v
    cases hr : run P priv1 es with
    | error f => simp [hst, hr] at h
    | ok w =>
      obtain ⟨rs1, p2⟩ := w
      simp [hst, hr] at h
      obtain ⟨rfl, rfl⟩ := h
      exact ⟨r, priv1, rs1, rfl, hr, rfl⟩

theorem started_run (P : Platform) (es : List Event) :
    ∀ (priv priv1 : Option NNStreamerRPC) (rs : List (Option Bool)),
      started priv → run P priv es = .ok (rs, priv1) → started priv1 := by
  induction es with
  | nil =>
    intro priv priv1 rs h hr
    simp [run] at hr
    rw [← hr.2]; exact h
  | cons e es ih =>
    intro priv priv1 rs h hr
    obtain ⟨r, p, rs1, hs, hrest, _⟩ := run_cons_inv P priv priv1 e es rs hr
    exact ih p priv1 rs1 (started_step P priv p e r h hs) hrest

theorem stopped_run (P : Platform) (es : List Event) :
    ∀ (priv priv1 : Option NNStreamerRPC) (rs : List (Option Bool)),
      stopped priv → run P priv es = .ok (rs, priv1) → stopped priv1 := by
  induction es with
  | nil =>
    intro priv priv1 rs h hr
    simp [run] at hr
    rw [← hr.2]; exact h
  | cons e es ih =>
    intro priv priv1 rs h hr
    obtain ⟨r, p, rs1, hs, hrest, _⟩ := run_cons_inv P priv priv1 e es rs hr
    exact ih p priv1 rs1 (stopped_step P priv p e r h hs).1 hrest

theorem started_of_run (P : Platform) (es : List Event) :
    ∀ (priv priv1 : Option NNStreamerRPC) (rs : List (Option Bool)),
      consistent priv → run P priv es = .ok (rs, priv1) →
      (∃ (k : Nat) (handle : Bool), es[k]? = some (Event.start handle) ∧ rs[k]? = some (some true)) →
      started priv1 := by
  induction es with
  | nil =>
    intro priv priv1 rs _ _ hk
    obtain ⟨k, handle, h1, _⟩ := hk
    simp at h1
  | cons e es ih =>
    intro priv priv1 rs h hr hk
    obtain ⟨r, p, rs1, hs, hrest, rfl⟩ := run_cons_inv P priv priv1 e es rs hr
    obtain ⟨k, handle, h1, h2⟩ := hk
    cases k with
    | zero =>
      simp at h1 h2
      subst h1 h2
      exact started_run P es p priv1 rs1 (started_of_start P priv p handle h hs) hrest
    | succ k =>
      simp at h1 h2
      exact ih p priv1 rs1 (consistent_step P priv p e r h hs) hrest ⟨k, handle, h1, h2⟩

theorem fifo_step (P : Platform) (s : NNStreamerRPC) (q : GstDataQueue) (e : Event)
    (r : Option Bool) (priv1 : Option NNStreamerRPC)
    (hq : s.queue_ = some q) (hw : s.worker_ = true) (hcfg : ∀ c, e ≠ .set_config c)
    (hs : step P (some s) e = .ok (r, priv1)) :
    ∃ s1 q1, priv1 = some s1 ∧ s1.queue_ = some q1 ∧ s1.worker_ = true ∧
      s1.config_ = s.config_ ∧
      ∀ es rs,
        s1.written.map Except.ok ++
            q1.items.map (fun item => _get_tensors_from_buffer P s.config_ item.object) ++
            (accepted es rs).map (_get_tensors_from_buffer P s.config_)
          = s.written.map Except.ok ++
            q.items.map (fun item => _get_tensors_from_buffer P s.config_ item.object) ++
            (accepted (e :: es) (r :: rs)).map (_get_tensors_from_buffer P s.config_) := by
  obtain ⟨s1, rfl, hev⟩ := step_some_inv P s e r priv1 hs
  cases e with
  | set_config c => exact absurd rfl (hcfg c)
  | set_callback a b =>
    obtain ⟨rfl, rfl⟩ := hev
    exact ⟨_, q, rfl, hq, hw, rfl, fun es rs => by simp [accepted, NNStreamerRPC.setCallback]⟩
  | start handle =>
    obtain ⟨r0, rfl, hst⟩ := hev
    obtain ⟨_, h1, h2, h3 | h3⟩ := start_inv s s1 handle r0 hst
    · exact ⟨s1, q, rfl, by rw [h3.1, hq], by rw [h3.2.1, hw], h1,
        fun es rs => by rw [h2]; cases r0 <;> simp [accepted]⟩
    · rw [hw] at h3
      exact absurd h3.2.1 (by decide)
  | send buffer =>
    obtain ⟨r0, rfl, hst⟩ := hev
    obtain ⟨q0, hq0, _, h1, h2, h3, h4 | h4⟩ := send_inv s s1 buffer r0 hst
    · rw [hq] at hq0
      cases hq0
      refine ⟨s1, q, rfl, h4.2.2, by rw [h1, hw], h2, fun es rs => ?_⟩
      rw [h3, h4.2.1]
      simp [accepted]
    · rw [hq] at hq0
      cases hq0
      refine ⟨s1, _, rfl, h4.2.2, by rw [h1, hw], h2, fun es rs => ?_⟩
      rw [h3, h4.2.1]
      simp [accepted]
  | stop =>
    obtain ⟨rfl, rfl⟩ := hev
    obtain ⟨_, h1, h2, h3, h4⟩ := stop_inv s
    refine ⟨_, { q with flushing := true }, rfl, by rw [h4, hq]; rfl, by rw [h1, hw], h2,
      fun es rs => ?_⟩
    rw [h3]
    simp [accepted]
  | writer_turn =>
    obtain ⟨rfl, hst⟩ := hev
    obtain ⟨_, h1, h2, h3 | ⟨q0, item, rest, frame, hq0, _, hi, he, h4, h5⟩⟩ :=
      writer_inv P s s1 hst
    · exact ⟨s1, q, rfl, by rw [h3.1, hq], by rw [h1, hw], h2,
        fun es rs => by rw [h3.2]; simp [accepted]⟩
    · rw [hq] at hq0
      cases hq0
      refine ⟨s1, _, rfl, h4, by rw [h1, hw], h2, fun es rs => ?_⟩
      rw [h5, hi]
      simp [accepted, he]

theorem fifo_run (P : Platform) (evs : List Event) :
    ∀ (s : NNStreamerRPC) (q : GstDataQueue) (rs : List (Option Bool))
      (priv1 : Option NNStreamerRPC),
      s.queue_ = some q → s.worker_ = true → (∀ c, Event.set_config c ∉ evs) →
      run P (some s) evs = .ok (rs, priv1) →
      ∃ s1 q1, priv1 = some s1 ∧ s1.queue_ = some q1 ∧
        s1.written.map Except.ok ++
            q1.items.map (fun item => _get_tensors_from_buffer P s.config_ item.object)
          = s.written.map Except.ok ++
            q.items.map (fun item => _get_tensors_from_buffer P s.config_ item.object) ++
            (accepted evs rs).map (_get_tensors_from_buffer P s.config_) := by
  induction evs with
  | nil =>
    intro s q rs priv1 hq _ _ hr
    simp [run] at hr
    obtain ⟨rfl, rfl⟩ := hr
    exact ⟨s, q, rfl, hq, by simp [accepted]⟩
  | cons e es ih =>
    intro s q rs priv1 hq hw hcfg hr
    obtain ⟨r, p, rs1, hs, hrest, rfl⟩ := run_cons_inv P (some s) priv1 e es rs hr
    obtain ⟨s1, q1, rfl, hq1, hw1, hc1, hstep⟩ := fifo_step P s q e r p hq hw
      (fun c hc => hcfg c (by rw [hc]; exact List.mem_cons_self _ _)) hs
    obtain ⟨s2, q2, rfl, hq2, hfin⟩ := ih s1 q1 rs1 priv1 hq1 hw1
      (fun c hc => hcfg c (List.mem_cons_of_mem _ hc)) hrest
    refine ⟨s2, q2, rfl, hq2, ?_⟩
    rw [hc1] at hfin
    rw [hfin, hstep es rs1]

/-! ## Claims on the facade -/

/-- C6 as stated fails: a `stop` issued before `start` finds no queue and does
nothing, and the `send` after the following `start` returns TRUE. -/
theorem send_succeeds_after_early_stop :
    returns lp64 (_grpc_new config_init false (some "localhost") 55115)
      [.stop, .start true, .send [1, 2]] = some [none, some true, some true] := by
  decide

/-- C6, amended. Flush correctness: in every sequence of facade operations on
one handle (worker turns interleaved at will), no `send` issued after a `stop`
that itself follows a `start` which returned TRUE returns TRUE: whenever such a
`send` returns, it returns FALSE. -/
theorem no_send_after_flush (P : Platform) (c : GstTensorsConfig) (server : Bool)
    (host : Option String) (port : Int) (pre post : List Event) (buffer : GstBuffer)
    (rs1 rs2 : List (Option Bool)) (r : Option Bool) (priv1 priv2 priv3 : Option NNStreamerRPC)
    (hpre : run P (_grpc_new c server host port) pre = .ok (rs1, priv1))
    (hstart : ∃ (k : Nat) (handle : Bool), pre[k]? = some (Event.start handle) ∧ rs1[k]? = some (some true))
    (hpost : run P priv1 (.stop :: post) = .ok (rs2, priv2))
    (hsend : step P priv2 (.send buffer) = .ok (r, priv3)) :
    r = some false := by
  have h1 : started priv1 :=
    started_of_run P pre _ priv1 rs1 (consistent_new c server host port) hpre hstart
  obtain ⟨r0, p, rs3, hs, hrest, _⟩ := run_cons_inv P priv1 priv2 .stop post rs2 hpost
  have hp : p = _grpc_stop priv1 := by
    simp [step] at hs
    exact hs.2.symm
  have h2 : stopped priv2 := stopped_run P post p priv2 rs3 (hp ▸ stopped_of_stop priv1 h1) hrest
  exact (stopped_step P priv2 priv3 _ r h2 hsend).2 buffer rfl

/-- Witness of C6: start, send, stop, a worker turn, then a send that returns FALSE. -/
theorem no_send_after_flush_witness :
    run lp64 (_grpc_new config_two false (some "localhost") 55115)
      [.start true, .send [1, 2, 3, 4, 5, 6]] = .ok ([some true, some true], some client_queued) ∧
    run lp64 (some client_queued) [.stop, .writer_turn] = .ok ([none, none], some client_flushed) ∧
    step lp64 (some client_flushed) (.send [6, 5, 4]) = .ok (some false, some client_flushed) ∧
    ∀ r priv3, step lp64 (some client_flushed) (.send [6, 5, 4]) = .ok (r, priv3) →
      r = some false :=
  ⟨rfl, rfl, rfl, fun r priv3 h =>
    no_send_after_flush lp64 config_two false (some "localhost") 55115
      [.start true, .send [1, 2, 3, 4, 5, 6]] [.writer_turn] [6, 5, 4]
      [some true, some true] [none, none] r (some client_queued) (some client_flushed) priv3
      rfl ⟨0, true, rfl, rfl⟩ rfl h⟩

/-- C7. FIFO: on a started client session (queue created and empty, worker
thread running, nothing written yet, format unchanged from there on), after any
sequence of facade calls and worker turns the frames the worker has written,
followed by the encodings of the buffers still queued, are the encodings of the
buffers of the `send` calls that returned TRUE, in call order: one frame per
buffer, none reordered, repeated or merged. -/
theorem fifo_order (P : Platform) (s : NNStreamerRPC) (evs : List Event)
    (rs : List (Option Bool)) (priv1 : Option NNStreamerRPC)
    (hq : s.queue_ = some gst_data_queue_new) (hw : s.worker_ = true)
    (hwr : s.written = []) (hcfg : ∀ c, Event.set_config c ∉ evs)
    (hrun : run P (some s) evs = .ok (rs, priv1)) :
    ∃ s1 q1, priv1 = some s1 ∧ s1.queue_ = some q1 ∧
      s1.written.map Except.ok ++
          q1.items.map (fun item => _get_tensors_from_buffer P s.config_ item.object)
        = (accepted evs rs).map (_get_tensors_from_buffer P s.config_) := by
  obtain ⟨s1, q1, h1, h2, h3⟩ := fifo_run P evs s gst_data_queue_new rs priv1 hq hw hcfg hrun
  refine ⟨s1, q1, h1, h2, ?_⟩
  rw [h3, hwr]
  simp [gst_data_queue_new]

/-- Witness of C7: three buffers sent, two of them written in between, one still queued. -/
theorem fifo_order_witness :
    run lp64 (some client_started) fifo_events = .ok (fifo_returns, some client_fifo) ∧
    ∃ s1 q1, some client_fifo = some s1 ∧ s1.queue_ = some q1 ∧
      s1.written.map Except.ok ++
          q1.items.map
            (fun item => _get_tensors_from_buffer lp64 client_started.config_ item.object)
        = (accepted fifo_events fifo_returns).map
            (_get_tensors_from_buffer lp64 client_started.config_) :=
  ⟨rfl, fifo_order lp64 client_started fifo_events fifo_returns (some client_fifo) rfl rfl rfl
    (fun c h => by simp [fifo_events] at h) rfl⟩

/-- C8 as stated fails: `_grpc_new` hands out a handle for the empty host
string, in either role. -/
theorem grpc_new_accepts_empty_host :
    (_grpc_new config_init true (some "") 0).isSome = true ∧
    (_grpc_new config_init false (some "") 55115).isSome = true := by
  decide

/-- C8, amended. `_grpc_new` validates that `host` is not NULL: for every role
and port it returns NULL when `host` is NULL and the constructed object for
every host string, the empty one included. -/
theorem grpc_new_checks_null_host (c : GstTensorsConfig) (server : Bool) (port : Int) :
    _grpc_new c server none port = none ∧
    ∀ host : String, _grpc_new c server (some host) port =
      some (NNStreamerRPC.init c server host port) :=
  ⟨rfl, fun _ => rfl⟩

/-- C9 at its failing inputs. On a client handle that was never started and on
a server handle that was started, `queue_` is NULL and `send` hands it to
`gst_data_queue_push` unguarded (`stop` tests `if (queue_)`, `send` does not):
the call leaves defined behaviour instead of returning FALSE.  Only the NULL
handle is answered with FALSE, by the guard of `_grpc_send`. -/
theorem send_without_queue_faults :
    _grpc_send (_grpc_new config_init false (some "localhost") 55115) [1, 2]
      = .error .null_queue ∧
    run lp64 (_grpc_new config_init true (some "localhost") 55115)
      [.start true, .send [1, 2]] = .error .null_queue ∧
    _grpc_send none [1, 2] = .ok (false, none) := by
  refine ⟨rfl, rfl, rfl⟩

/-- What `send` does on a queue that is not flushing: TRUE, and one item more
at the tail. -/
theorem send_admits (self : NNStreamerRPC) (queue : GstDataQueue) (buffer : GstBuffer)
    (hq : self.queue_ = some queue) (hf : queue.flushing = false) :
    _grpc_send (some self) buffer =
      .ok (true, some { self with
        queue_ := some { queue with
          items := queue.items ++
            [{ object := buffer, size := guint buffer.length, visible := true }] } }) := by
  simp [_grpc_send, NNStreamerRPC.send, gst_data_queue_push, hq, hf,
    _data_queue_check_full_cb]

/-- C10 as stated fails: for a buffer of `2 ^ 32 + 5` bytes sent on a started
client, the item appended has size 5, not the byte size of the buffer: the size
field of a queue item is a `guint`. -/
theorem send_narrows_item_size :
    buffer_larger.length = 4294967301 ∧
    ∃ self1 queue1 item, _grpc_send (some client_started) buffer_larger = .ok (true, some self1) ∧
      self1.queue_ = some queue1 ∧ queue1.items = [item] ∧
      item.object = buffer_larger ∧ item.size = 5 := by
  have hl : buffer_larger.length = 4294967301 := List.length_replicate _ _
  refine ⟨hl, _, _, _, send_admits client_started gst_data_queue_new buffer_larger rfl rfl,
    rfl, rfl, rfl, ?_⟩
  show guint buffer_larger.length = 5
  rw [hl]
  decide

/-- C10, amended. Always-admit: on a session whose queue exists and has not
been set flushing, `send` returns TRUE for every buffer, whatever its size and
whatever is queued already, and appends exactly one item at the tail of the
queue: the buffer, with its byte size modulo `2 ^ 32` as the item size, which is
the byte size itself for a buffer below 4 GiB.  The check-full callback answers
FALSE for every argument. -/
theorem send_always_admits (self : NNStreamerRPC) (queue : GstDataQueue) (buffer : GstBuffer)
    (hq : self.queue_ = some queue) (hf : queue.flushing = false) :
    _grpc_send (some self) buffer =
      .ok (true, some { self with
        queue_ := some { queue with
          items := queue.items ++
            [{ object := buffer, size := buffer.length % 2 ^ 32, visible := true }] } }) ∧
    (buffer.length < 2 ^ 32 → guint buffer.length = buffer.length) ∧
    ∀ q visible bytes time checkdata,
      _data_queue_check_full_cb q visible bytes time checkdata = false :=
  ⟨send_admits self queue buffer hq hf, fun h => Nat.mod_eq_of_lt h, fun _ _ _ _ _ => rfl⟩

/-- Witness of C10: a 3-byte buffer sent on a started client that has one
buffer queued already. -/
theorem send_always_admits_witness :
    client_queued.queue_ = some
      { flushing := false
        items := [{ object := [1, 2, 3, 4, 5, 6], size := 6, visible := true }] } ∧
    _grpc_send (some client_queued) [1, 2, 3] =
      .ok (true, some { client_queued with
        queue_ := some
          { flushing := false
            items := [{ object := [1, 2, 3, 4, 5, 6], size := 6, visible := true },
                      { object := [1, 2, 3], size := 3, visible := true }] } }) :=
  ⟨rfl, (send_always_admits client_queued
    { flushing := false
      items := [{ object := [1, 2, 3, 4, 5, 6], size := 6, visible := true }] }
    [1, 2, 3] rfl rfl).1⟩

/-! ## Claims on stop, the scenario and the server role -/

/-- C11. `stop` is idempotent and safe in every state: it is defined on every
session object, with or without a queue, `stop (stop s) = stop s`, and it
changes nothing in the object except the flushing flag of the queue (the
queued items stay); the same holds for `_grpc_stop` on every handle, NULL
included. -/
theorem stop_idempotent (self : NNStreamerRPC) :
    self.stop.stop = self.stop ∧
    self.stop = { self with
      queue_ := self.queue_.map (fun queue => { queue with flushing := true }) } ∧
    (self.queue_ = none → self.stop = self) ∧
    ∀ priv, _grpc_stop (_grpc_stop priv) = _grpc_stop priv := by
  have h1 : ∀ s : NNStreamerRPC, s.stop.stop = s.stop := by
    intro s
    obtain ⟨a, b, c, d, e, f, g, h, q, i, j, k⟩ := s
    cases q <;> simp [NNStreamerRPC.stop, gst_data_queue_set_flushing]
  refine ⟨h1 self, ?_, ?_, ?_⟩
  · obtain ⟨a, b, c, d, e, f, g, h, q, i, j, k⟩ := self
    cases q <;> simp [NNStreamerRPC.stop, gst_data_queue_set_flushing]
  · intro hq
    simp [NNStreamerRPC.stop, hq]
  · intro priv
    cases priv with
    | none => rfl
    | some s => simp [_grpc_stop, h1 s]

/-- C12. Scenario: with one float32 tensor of shape `[4]` at 30/1 configured,
encoding the 16-byte buffer of four `1.0f` values gives a frame with
`num_tensor = 1` whose single record has shape `[4]` (held, like the shape of the
format, in the 4 entries `4:1:1:1` of a `tensor_dim`) and those 16 bytes as
data; the decode of that frame fills one slot, with a blob of 16 bytes equal to
the four floats. -/
theorem scenario_four_floats :
    config_scenario.wf lp64 ∧ four_floats.length = 16 ∧
    _get_tensors_from_buffer lp64 config_scenario four_floats = .ok frame_scenario ∧
    frame_scenario.num_tensor = 1 ∧
    frame_scenario.tensor.map (·.dimension) = [[4, 1, 1, 1]] ∧
    frame_scenario.tensor.map (·.data) = [four_floats] ∧
    SendTensors_memory lp64 frame_scenario =
      .ok (some { data := four_floats, size := 16 } :: List.replicate 15 none) := by
  refine ⟨by decide, rfl, rfl, rfl, rfl, rfl, rfl⟩

/-- The handler on frames the decode accepts: every frame is decoded and, with
a callback registered, delivered once, in order, with the registered context;
without one nothing is invoked; the status is OK. -/
theorem SendTensors_delivers (P : Platform) (self : NNStreamerRPC) (frames : List Tensors)
    (hok : ∀ t ∈ frames, t.num_tensor ≤ P.NNS_TENSOR_SIZE_LIMIT ∧
      t.num_tensor ≤ t.tensor.length) :
    ∃ calls, self.SendTensors P frames = .ok (calls, .OK) ∧
      (self.cb_ = none → calls = []) ∧
      (∀ cb, self.cb_ = some cb →
        calls.map (fun c => Except.ok c.memory) = frames.map (SendTensors_memory P) ∧
        ∀ c ∈ calls, c.cb = cb ∧ c.cb_data = self.cb_data_) := by
  induction frames with
  | nil => exact ⟨[], rfl, fun _ => rfl, fun cb _ => ⟨rfl, fun c hc => by cases hc⟩⟩
  | cons t rest ih =>
    obtain ⟨calls, hrest, hnone, hsome⟩ := ih (fun u hu => hok u (List.mem_cons_of_mem _ hu))
    obtain ⟨h1, h2⟩ := hok t (List.mem_cons_self _ _)
    obtain ⟨m, hm, _, _, _⟩ := memory_from_full t t.num_tensor 0
      (List.replicate P.NNS_TENSOR_SIZE_LIMIT none) (by omega) (by simpa using h1)
    have hm2 : SendTensors_memory P t = .ok m := hm
    cases hcb : self.cb_ with
    | none =>
      refine ⟨calls, ?_, fun _ => hnone hcb, fun cb h => by cases h⟩
      simp only [NNStreamerRPC.SendTensors, hm2, hrest, hcb]
    | some cb =>
      refine ⟨{ cb := cb, cb_data := self.cb_data_, memory := m } :: calls, ?_,
        fun h => (by cases h), fun cb2 h => ?_⟩
      · simp only [NNStreamerRPC.SendTensors, hm2, hrest, hcb]
      · cases h
        obtain ⟨h3, h4⟩ := hsome cb hcb
        refine ⟨by simp [hm2, h3], fun c hc => ?_⟩
        rcases List.mem_cons.mp hc with rfl | hc
        · exact ⟨rfl, rfl⟩
        · exact h4 c hc

/-- C13 at its failing input. A stream of two frames whose second one declares
and carries 17 tensors: while decoding the second frame the handler stores at
`memory[16]`, outside the slots it allocated (the defect of C4), so it neither
delivers that frame nor reaches `return Status::OK`; a frame that declares two
tensors and carries one (as C16's encoder output) makes it ask for a record that
does not exist.  A stream of frames within the limit is delivered as claimed. -/
theorem SendTensors_faults_on_long_frame :
    server_with_cb.SendTensors lp64 [frame_one, frame_seventeen] = .error (.memory_index 16) ∧
    server_with_cb.SendTensors lp64 [frame_short] = .error (.record_index 1) ∧
    server_with_cb.SendTensors lp64 [frame_one, frame_scenario] =
      .ok ([{ cb := 1, cb_data := some 2,
              memory := some { data := [9, 8, 7], size := 3 } :: List.replicate 15 none },
            { cb := 1, cb_data := some 2,
              memory := some { data := four_floats, size := 16 } :: List.replicate 15 none }],
           .OK) := by
  refine ⟨rfl, rfl, rfl⟩

/-- C16 at its failing input. Under the two-tensor format (2 and 4 bytes) a
1-byte buffer makes the loop add the record of the first tensor and break:
the frame declares `num_tensor = 2` and carries one record, and the decode loop
of `SendTensors` on that frame asks for `tensors.tensor (1)`, which does not
exist. -/
theorem truncated_frame_declares_missing_records :
    _get_tensors_from_buffer lp64 config_two [7] = .ok frame_short ∧
    frame_short.num_tensor = 2 ∧ frame_short.tensor.length = 1 ∧
    SendTensors_memory lp64 frame_short = .error (.record_index 1) := by
  refine ⟨rfl, rfl, rfl, rfl⟩

/-! ## Claims on the NTP utility and the image-segment decoder -/

/-- On a big-endian host, where `ntohl` changes nothing, the value returned on
the success path is the one the reference client computes. -/
theorem ntp_epoch_big_endian (env : ntp_calls) (hosts : List (String × Nat))
    (hbe : env.little_endian = false) (hs : 0 ≤ env.socket)
    (hr : env.resolves ntp_default_hname = true) (hc : 0 ≤ env.connect)
    (hw : 0 ≤ env.write) (hrd : 0 ≤ env.read) :
    ntp_util_get_epoch env hosts = ntp_client_example_txTm env.little_endian env.response := by
  simp [ntp_util_get_epoch, ntp_client_example_txTm, ntohl, hbe, hr,
    Int.not_lt.mpr hs, Int.not_lt.mpr hc, Int.not_lt.mpr hw, Int.not_lt.mpr hrd]

/-- C14 at its failing input. On a little-endian host whose calls all succeed,
with a response whose transmit seconds are 3835382400 on the wire,
`ntp_util_get_epoch` returns `packet.xmit_ts.sec - NTP_TIMESTAMP_DELTA` from the
field as it lies in memory (2152373220): -56615580.  The value of `ntohl` of the
field minus 2208988800, which the reference client computes from the same
packet, is 1626393600. -/
theorem ntp_epoch_skips_ntohl :
    ntohl true ntp_calls_sample.response.xmit_ts.sec = 3835382400 ∧
    ntp_util_get_epoch ntp_calls_sample [] = -56615580 ∧
    ntp_client_example_txTm true ntp_calls_sample.response = 1626393600 ∧
    (ntohl true ntp_calls_sample.response.xmit_ts.sec : Int) - NTP_TIMESTAMP_DELTA
      = 1626393600 := by
  refine ⟨by decide, by decide, by decide, by decide⟩

/-- C15. Option 2 (`op_num` 1) is the output dimension WIDTH:HEIGHT: in every
state `is_setOption` returns TRUE and leaves `mode`, `i_width`, `i_height` and
`segment_map` as they were; for a parameter that is neither NULL nor empty and
parses to rank at least 2 it sets `o_width` to the first and `o_height` to the
second element parsed (later ones are not read); for a NULL, empty or
rank-below-2 parameter it sets both to 0. -/
theorem option2_sets_output_dimension (H : decoder_helpers) (idata : image_segments)
    (param : Option String) :
    (is_setOption H idata 1 param).1 = true ∧
    (is_setOption H idata 1 param).2.mode = idata.mode ∧
    (is_setOption H idata 1 param).2.i_width = idata.i_width ∧
    (is_setOption H idata 1 param).2.i_height = idata.i_height ∧
    (is_setOption H idata 1 param).2.segment_map = idata.segment_map ∧
    (param ≠ none → param ≠ some "" → 2 ≤ (H.gst_tensor_parse_dimension param).1 →
      (is_setOption H idata 1 param).2.o_width =
          (H.gst_tensor_parse_dimension param).2.getD 0 0 ∧
      (is_setOption H idata 1 param).2.o_height =
          (H.gst_tensor_parse_dimension param).2.getD 1 0) ∧
    (param = none ∨ param = some "" ∨ (H.gst_tensor_parse_dimension param).1 < 2 →
      (is_setOption H idata 1 param).2.o_width = 0 ∧
      (is_setOption H idata 1 param).2.o_height = 0) := by
  by_cases h1 : param = none ∨ param = some ""
  · simp only [is_setOption]
    simp [h1]
    intro h2 h3
    rcases h1 with h1 | h1
    · exact absurd h1 h2
    · exact absurd h1 h3
  · by_cases h2 : (H.gst_tensor_parse_dimension param).1 < 2
    · simp only [is_setOption]
      simp [h1, h2]
    · simp only [is_setOption]
      simp [h1, h2]

set_option maxRecDepth 8000 in
/-- C17 at its failing input. After `is_init`, option 1 `"tflite-deeplab"`
allocates 257 rows of 257 entries, and option 3 `"300:300"` then sets `i_width`
and `i_height` to 300 without touching `segment_map`: the map is allocated with
257 rows while `i_height` is 300, and `_free_segment_map` reads `segment_map[257]`,
past the rows allocated.  With `"100:100"` it frees 100 of the 257 rows. -/
theorem segment_map_outlives_input_size :
    (set_options helpers_sample is_init.2
        [(0, some "tflite-deeplab"), (2, some "300:300")]).segment_map
      = some (List.replicate 257 (List.replicate 257 0)) ∧
    (set_options helpers_sample is_init.2
        [(0, some "tflite-deeplab"), (2, some "300:300")]).i_height = 300 ∧
    (set_options helpers_sample is_init.2
        [(0, some "tflite-deeplab"), (2, some "300:300")]).i_width = 300 ∧
    _free_segment_map (set_options helpers_sample is_init.2
        [(0, some "tflite-deeplab"), (2, some "300:300")]) = .error (.row_index 257) ∧
    (_free_segment_map (set_options helpers_sample is_init.2
        [(0, some "tflite-deeplab"), (2, some "100:100")])).map (·.1) = .ok 100 := by
  refine ⟨rfl, rfl, rfl, rfl, rfl⟩

end NNStreamer
